import Mathlib

/-!
# Falcor `ParticleSystem`: host-side model

A shallow embedding of `Source/Falcor/Scene/ParticleSystem/ParticleSystem.cpp`.

Conventions.
* `uint32_t` values are natural numbers; where the source can leave the 32-bit
  range the reduction `% 2 ^ 32` is written out.
* `int32_t` values are integers, wrapped by `wrapInt32` where a sum is formed.
* `float` values are rational numbers (the arithmetic of the source is taken
  exactly).  The one place where single precision is decisive, the capacity
  computation in the constructor, is modelled in single precision:
  `floatOfUInt32` for the conversion `(float)maxParticles` and `ceilLog2f` for
  `std::ceil(log2(..))`.
* `glm::linearRand` is an external generator: every call site receives the
  drawn value as an argument, and `ValidParticleDraw` / `ValidCountDraw` record
  the interval the source passes to the generator.
* GPU buffers appear as the values the host last uploaded; dispatches and draws
  are appended to a command list.
-/

namespace Falcor

/-! ## Numeric helpers -/

/-- Number of low bits a 24-bit significand cannot hold: the least `e` with
`n / 2 ^ e < 2 ^ 24` (`fuel` bounds the search and is never exhausted when
`n ≤ fuel`). -/
def significandShift : Nat → Nat → Nat
  | 0, _ => 0
  | fuel + 1, n => if n < 2 ^ 24 then 0 else significandShift fuel (n / 2) + 1

/-- Value of `(float)n` for an unsigned 32-bit `n`: the nearest number with a
24-bit significand, ties going to the even significand. -/
def floatOfUInt32 (n : Nat) : Nat :=
  if n < 2 ^ 24 then n
  else
    let e := significandShift n n
    let q := n / 2 ^ e
    let r := n % 2 ^ e
    let half := 2 ^ (e - 1)
    let q1 := if half < r ∨ (r = half ∧ q % 2 = 1) then q + 1 else q
    q1 * 2 ^ e

/-- Search for the least `j ≥ k` with `x ≤ 2 ^ j`, giving up after `fuel`
steps. -/
def ceilLog2From : Nat → Nat → Nat → Nat
  | 0, _, k => k
  | fuel + 1, x, k => if x ≤ 2 ^ k then k else ceilLog2From fuel x (k + 1)

/-- The exponent of the least power of two that is `≥ x`: the least `k` with
`x ≤ 2 ^ k` (`x` steps always suffice).  This is what the rounding-up of the
capacity aims at; the source computes it in floating point, see `ceilLog2f`. -/
def ceilLog2 (x : Nat) : Nat := ceilLog2From x x 0

/-- Number of halvings that bring `x` below 2, giving up after `fuel` steps. -/
def floorLog2From : Nat → Nat → Nat
  | 0, _ => 0
  | fuel + 1, x => if x < 2 then 0 else floorLog2From fuel (x / 2) + 1

/-- The integer part of `log2 x` for `x ≥ 1`: `2 ^ k ≤ x < 2 ^ (k + 1)`. -/
def floorLog2 (x : Nat) : Nat := floorLog2From x x

/-- Value of `std::ceil(log2(x))` for a `float` `x` that holds a positive
integer, `log2` being the single-precision function, rounded to nearest.
With `k = floorLog2 x`: a power of two has `log2 x = k` exactly.  Otherwise
`k < log2 x < k + 1`, and the floats between `k` and `k + 1` are spaced
`2 ^ (L - 23)` apart, `L = floorLog2 k`; so `log2` returns `k` itself exactly
when `log2 x < k + 2 ^ (L - 24)`, that is when `(x / 2 ^ k) ^ (2 ^ (24 - L)) < 2`,
and a float above `k` (hence ceiling `k + 1`) in every other case. -/
def ceilLog2f (x : Nat) : Nat :=
  let k := floorLog2 x
  if x = 2 ^ k then k
  else
    let N := 2 ^ (24 - floorLog2 k)
    if x ^ N < 2 * (2 ^ k) ^ N then k else k + 1

/-- Value of `pow(2, std::ceil(log2(x)))` for a `float` `x` that holds a
non-negative integer (`log2(0)` is minus infinity and `pow(2, -inf)` is zero;
`pow` of an integral exponent is exact). -/
def pow2CeilLog2 (x : Nat) : Nat :=
  if x = 0 then 0 else 2 ^ ceilLog2f x

/-- The conversion `(uint32_t)` of a non-negative integral value. -/
def toUInt32 (v : Nat) : Nat := v % 2 ^ 32

/-- Two's-complement reduction of an integer to the `int32_t` range. -/
def wrapInt32 (v : Int) : Int := (v + 2 ^ 31) % 2 ^ 32 - 2 ^ 31

/-- The conversion `(int32_t)` of an unsigned 32-bit value. -/
def toInt32 (v : Nat) : Int := wrapInt32 (v : Int)

/-- `std::numeric_limits<float>::max()`. -/
def floatMax : ℚ := 2 ^ 128 - 2 ^ 104

/-! ## Data -/

/-- `glm::vec3`. -/
structure vec3 where
  x : ℚ
  y : ℚ
  z : ℚ
  deriving DecidableEq, Repr

/-- Component-wise sum of two `vec3`. -/
def vec3.add (a b : vec3) : vec3 := ⟨a.x + b.x, a.y + b.y, a.z + b.z⟩

/-- The emitter record `mEmitter`. -/
structure EmitterData where
  duration : ℚ
  durationOffset : ℚ
  emitFrequency : ℚ
  emitCount : Int
  emitCountOffset : Int
  spawnPos : vec3
  spawnPosOffset : vec3
  vel : vec3
  velOffset : vec3
  accel : vec3
  accelOffset : vec3
  scale : ℚ
  scaleOffset : ℚ
  growth : ℚ
  growthOffset : ℚ
  billboardRotation : ℚ
  billboardRotationOffset : ℚ
  billboardRotationVel : ℚ
  billboardRotationVelOffset : ℚ
  deriving DecidableEq, Repr

/-- One pool slot / one entry of the emit batch. -/
structure Particle where
  pos : vec3
  vel : vec3
  accel : vec3
  scale : ℚ
  growth : ℚ
  life : ℚ
  rot : ℚ
  rotVel : ℚ
  deriving DecidableEq, Repr

/-- The constant buffer `PerEmit`. -/
structure EmitData where
  numEmit : Nat
  maxParticles : Nat
  deriving DecidableEq, Repr

/-- One entry of the alive list in sorted mode. -/
structure SortData where
  index : Nat
  depth : ℚ
  deriving DecidableEq, Repr

/-- The constant buffer `PerFrame` of the simulate pass (the view matrix is
present only in sorted mode). -/
structure SimulatePerFrame where
  view : Option (List ℚ)
  dt : ℚ
  maxParticles : Nat
  deriving DecidableEq, Repr

/-- The constant buffer `PerFrame` of the draw pass. -/
structure VSPerFrame where
  view : List ℚ
  proj : List ℚ
  deriving DecidableEq, Repr

/-- The programs the engine binds. -/
inductive Pass where
  | emit
  | simulate
  | sort
  deriving DecidableEq, Repr

/-- What the host submits to the render context. -/
inductive Command where
  | dispatch (pass : Pass) (gx gy gz : Nat)
  | drawIndirect
  deriving DecidableEq, Repr

/-- The values `glm::linearRand` returns during the body of one iteration of
the loop in `emit`, in source order. -/
structure ParticleDraw where
  pos : vec3
  vel : vec3
  accel : vec3
  scale : ℚ
  growth : ℚ
  life : ℚ
  rot : ℚ
  rotVel : ℚ
  deriving DecidableEq, Repr

/-- Host state of the engine together with the buffer contents it uploaded. -/
structure ParticleSystem where
  mShouldSort : Bool
  mMaxEmitPerFrame : Nat
  mMaxParticles : Nat
  mSimulateThreads : Nat
  mEmitTimer : ℚ
  mEmitter : EmitterData
  mSortDataReset : List SortData
  deadList : List Nat
  deadListCounter : Nat
  aliveList : List SortData
  aliveListCounter : Nat
  indirectArgs : List Nat
  emitList : List Particle
  emitCB : Option EmitData
  simulateCB : Option SimulatePerFrame
  drawCB : Option VSPerFrame
  commands : List Command
  deriving DecidableEq, Repr

/-! ## Construction -/

/-- The capacity computed at `ParticleSystem.cpp:57-66`. -/
def computeMaxParticles (sorted : Bool) (maxParticles : Nat) : Nat :=
  if sorted then toUInt32 (pow2CeilLog2 (floatOfUInt32 maxParticles))
  else maxParticles

/-- The vector filled by `std::generate` with `counter++`
(`ParticleSystem.cpp:97-100`): `size` entries, starting from `counter`. -/
def generateIndices : Nat → Nat → List Nat
  | 0, _ => []
  | size + 1, counter => counter :: generateIndices size (counter + 1)

/-- The buffer built by `initSortResources`: `n` copies of the reset entry. -/
def initSortResources (n : Nat) : List SortData :=
  List.replicate n { index := toUInt32 (2 ^ 32 - 1), depth := floatMax }

/-- The constructor.  The thread-group size of the simulate program, the
initial emitter record and the initial timer are declared outside this file
and are arguments here. -/
def ParticleSystem.create (maxParticles maxEmitPerFrame : Nat) (sorted : Bool)
    (simThreads : Nat × Nat × Nat) (emitter : EmitterData) (timer : ℚ) :
    ParticleSystem :=
  let cap := computeMaxParticles sorted maxParticles
  { mShouldSort := sorted
    mMaxEmitPerFrame := maxEmitPerFrame
    mMaxParticles := cap
    mSimulateThreads := simThreads.1 * simThreads.2.1 * simThreads.2.2
    mEmitTimer := timer
    mEmitter := emitter
    mSortDataReset := if sorted then initSortResources cap else []
    deadList := generateIndices cap 0
    deadListCounter := cap
    aliveList := []
    aliveListCounter := 0
    indirectArgs := [4]
    emitList := []
    emitCB := none
    simulateCB := none
    drawCB := none
    commands := [] }

/-! ## Emission -/

/-- Modelled from the spec: the helper `div_round_up` is declared outside this
file; the spec asks for a dispatch "sized to cover `count` work-items at the
engine's fixed emit-thread-group width", which is the rounded-up quotient. -/
def div_round_up (a b : Nat) : Nat := (a + b - 1) / b

/-- Component-wise `lo ≤ v ≤ hi` with `lo = -off`, `hi = off`: the interval
handed to `glm::linearRand(-off, off)` for a `vec3`. -/
def vec3.withinOffset (v off : vec3) : Prop :=
  (-off.x ≤ v.x ∧ v.x ≤ off.x) ∧ (-off.y ≤ v.y ∧ v.y ≤ off.y) ∧
    (-off.z ≤ v.z ∧ v.z ≤ off.z)

instance (v off : vec3) : Decidable (vec3.withinOffset v off) := by
  unfold vec3.withinOffset; infer_instance

/-- Each drawn value lies in the interval that `emit` passes to
`glm::linearRand` at the corresponding line (`ParticleSystem.cpp:168-176`). -/
def ValidParticleDraw (e : EmitterData) (d : ParticleDraw) : Prop :=
  d.pos.withinOffset e.spawnPosOffset ∧
  d.vel.withinOffset e.velOffset ∧
  d.accel.withinOffset e.accelOffset ∧
  (-e.scaleOffset ≤ d.scale ∧ d.scale ≤ e.scaleOffset) ∧
  (-e.growthOffset ≤ d.growth ∧ d.growth ≤ e.growthOffset) ∧
  (-e.growthOffset ≤ d.life ∧ d.life ≤ e.growthOffset) ∧
  (-e.billboardRotationOffset ≤ d.rot ∧ d.rot ≤ e.billboardRotationOffset) ∧
  (-e.billboardRotationVelOffset ≤ d.rotVel ∧
    d.rotVel ≤ e.billboardRotationVelOffset)

instance (e : EmitterData) (d : ParticleDraw) : Decidable (ValidParticleDraw e d) := by
  unfold ValidParticleDraw; infer_instance

/-- The body of the loop of `emit` for one particle. -/
def sampleParticle (e : EmitterData) (d : ParticleDraw) : Particle :=
  { pos := e.spawnPos.add d.pos
    vel := e.vel.add d.vel
    accel := e.accel.add d.accel
    scale := (1 / 2) * e.scale + d.scale
    growth := (1 / 2) * e.growth + d.growth
    life := e.duration + d.life
    rot := e.billboardRotation + d.rot
    rotVel := e.billboardRotationVel + d.rotVel }

/-- The vector `emittedParticles` after the loop: entry `i` is sampled with
the draws of iteration `i`. -/
def emittedParticles (e : EmitterData) (num : Nat) (draws : Nat → ParticleDraw) :
    List Particle :=
  (List.range num).map fun i => sampleParticle e (draws i)

/-- `ParticleSystem::emit`.  `emitThreads` is the macro `EMIT_THREADS`, which
is defined outside this file. -/
def ParticleSystem.emit (emitThreads : Nat) (ps : ParticleSystem) (num : Nat)
    (draws : Nat → ParticleDraw) : ParticleSystem :=
  let batch := emittedParticles ps.mEmitter num draws
  let emitData : EmitData := { numEmit := num, maxParticles := ps.mMaxParticles }
  let numGroups := div_round_up num emitThreads
  { ps with
    emitList := batch
    emitCB := some emitData
    commands := ps.commands ++ [Command.dispatch Pass.emit 1 numGroups 1] }

/-! ## Per-frame update and render -/

/-- The drawn value lies in the interval `update` passes to
`glm::linearRand` for the emission count. -/
def ValidCountDraw (e : EmitterData) (r : Int) : Prop :=
  -e.emitCountOffset ≤ r ∧ r ≤ e.emitCountOffset

instance (e : EmitterData) (r : Int) : Decidable (ValidCountDraw e r) := by
  unfold ValidCountDraw; infer_instance

/-- The argument `update` passes to `emit`:
`max(emitCount + linearRand(-emitCountOffset, emitCountOffset), 0)` with the
sum formed in `int32_t`; `r` is the drawn value. -/
def emitRequest (e : EmitterData) (r : Int) : Int :=
  max (wrapInt32 (e.emitCount + r)) 0

/-- The timer step at the head of `update`: the new timer and whether the
branch calling `emit` is taken. -/
def timerStep (timer dt freq : ℚ) : ℚ × Bool :=
  let t := timer + dt
  if freq ≤ t then (t - freq, true) else (t, false)

/-- The x-dimension of the simulate dispatch:
`max(mMaxParticles / mSimulateThreads, 1u)`. -/
def simulateGroups (maxParticles simulateThreads : Nat) : Nat :=
  max (maxParticles / simulateThreads) 1

/-- `ParticleSystem::update`.  `r` is the value drawn for the emission count
and `draws` the values drawn inside `emit`; both are consulted only when the
emission branch is taken. -/
def ParticleSystem.update (emitThreads : Nat) (ps : ParticleSystem) (dt : ℚ)
    (view : List ℚ) (r : Int) (draws : Nat → ParticleDraw) : ParticleSystem :=
  let step := timerStep ps.mEmitTimer dt ps.mEmitter.emitFrequency
  let ps1 : ParticleSystem := { ps with mEmitTimer := step.1 }
  let ps2 : ParticleSystem :=
    if step.2 then
      ParticleSystem.emit emitThreads ps1 (emitRequest ps1.mEmitter r).toNat draws
    else ps1
  let ps3 : ParticleSystem :=
    if ps2.mShouldSort then
      { ps2 with
        simulateCB := some { view := some view, dt := dt, maxParticles := ps2.mMaxParticles }
        aliveList := ps2.mSortDataReset.take ps2.mMaxParticles ++
          ps2.aliveList.drop ps2.mMaxParticles }
    else
      { ps2 with
        simulateCB := some { view := none, dt := dt, maxParticles := ps2.mMaxParticles } }
  { ps3 with
    aliveListCounter := 0
    commands := ps3.commands ++
      [Command.dispatch Pass.simulate
        (simulateGroups ps3.mMaxParticles ps3.mSimulateThreads) 1 1] }

/-- `ParticleSystem::render`. -/
def ParticleSystem.render (ps : ParticleSystem) (view proj : List ℚ) : ParticleSystem :=
  let ps1 : ParticleSystem :=
    if ps.mShouldSort then
      { ps with commands := ps.commands ++ [Command.dispatch Pass.sort 1 1 1] }
    else ps
  { ps1 with
    drawCB := some { view := view, proj := proj }
    commands := ps1.commands ++ [Command.drawIndirect] }

/-! ## Mutators -/

/-- `ParticleSystem::setParticleDuration`. -/
def ParticleSystem.setParticleDuration (ps : ParticleSystem) (dur offset : ℚ) :
    ParticleSystem :=
  { ps with mEmitter := { ps.mEmitter with duration := dur, durationOffset := offset } }

/-- `ParticleSystem::setEmitData`; the two counts arrive as `uint32_t` and are
stored as `int32_t`. -/
def ParticleSystem.setEmitData (ps : ParticleSystem) (emitCount emitCountOffset : Nat)
    (emitFrequency : ℚ) : ParticleSystem :=
  { ps with mEmitter := { ps.mEmitter with
      emitCount := toInt32 emitCount
      emitCountOffset := toInt32 emitCountOffset
      emitFrequency := emitFrequency } }

/-- `ParticleSystem::setSpawnPos`. -/
def ParticleSystem.setSpawnPos (ps : ParticleSystem) (spawnPos offset : vec3) :
    ParticleSystem :=
  { ps with mEmitter := { ps.mEmitter with spawnPos := spawnPos, spawnPosOffset := offset } }

/-- `ParticleSystem::setVelocity`. -/
def ParticleSystem.setVelocity (ps : ParticleSystem) (velocity offset : vec3) :
    ParticleSystem :=
  { ps with mEmitter := { ps.mEmitter with vel := velocity, velOffset := offset } }

/-- `ParticleSystem::setAcceleration`. -/
def ParticleSystem.setAcceleration (ps : ParticleSystem) (accel offset : vec3) :
    ParticleSystem :=
  { ps with mEmitter := { ps.mEmitter with accel := accel, accelOffset := offset } }

/-- `ParticleSystem::setBillboardRotation`. -/
def ParticleSystem.setBillboardRotation (ps : ParticleSystem) (rot offset : ℚ) :
    ParticleSystem :=
  { ps with mEmitter := { ps.mEmitter with
      billboardRotation := rot, billboardRotationOffset := offset } }

/-- `ParticleSystem::setBillboardRotationVelocity`. -/
def ParticleSystem.setBillboardRotationVelocity (ps : ParticleSystem) (rotVel offset : ℚ) :
    ParticleSystem :=
  { ps with mEmitter := { ps.mEmitter with
      billboardRotationVel := rotVel, billboardRotationVelOffset := offset } }

/-- `ParticleSystem::setGrowth`. -/
def ParticleSystem.setGrowth (ps : ParticleSystem) (growth offset : ℚ) : ParticleSystem :=
  { ps with mEmitter := { ps.mEmitter with growth := growth, growthOffset := offset } }

/-- `ParticleSystem::setScale`. -/
def ParticleSystem.setScale (ps : ParticleSystem) (scale offset : ℚ) : ParticleSystem :=
  { ps with mEmitter := { ps.mEmitter with scale := scale, scaleOffset := offset } }

/-! ## The GPU side of a frame

The emit and simulate kernels are shader programs that live outside this
file.  They are modelled from the spec; the host functions above decide which
kernels run, with which header and over how many threads. -/

/-- GPU-resident data the host never reads back: the dead list as a stack (top
first), the particle pool, and the slots appended to the alive list by the
last simulate pass. -/
structure GpuState where
  free : List Nat
  pool : List Particle
  alive : List Nat
  deriving DecidableEq, Repr

/-- Scaling of a `vec3`. -/
def vec3.smul (c : ℚ) (a : vec3) : vec3 := ⟨c * a.x, c * a.y, c * a.z⟩

/-- Modelled from the spec: one simulation step of a particle, "position
integrates velocity and acceleration, scale grows, rotation advances by
rotational velocity, lifetime decrements by delta". -/
def Particle.advance (p : Particle) (dt : ℚ) : Particle :=
  { p with
    pos := p.pos.add (vec3.smul dt p.vel)
    vel := p.vel.add (vec3.smul dt p.accel)
    scale := p.scale + dt * p.growth
    rot := p.rot + dt * p.rotVel
    life := p.life - dt }

/-- Modelled from the spec: one work-item of the emit kernel, which "pops" an
index "from the Dead List and writes sampled particle data into" that pool
slot; "if fewer free slots remain than requested, excess spawns are silently
dropped". -/
def emitWorkItem (g : GpuState) (p : Particle) : GpuState :=
  match g.free with
  | [] => g
  | slot :: rest => { g with free := rest, pool := g.pool.set slot p }

/-- Modelled from the spec: the emit kernel run over `threads` threads with
the header count `numEmit`; work-item `i` spawns entry `i` of the batch. -/
def emitKernel (g : GpuState) (batch : List Particle) (numEmit threads : Nat) :
    GpuState :=
  (batch.take (min numEmit threads)).foldl emitWorkItem g

/-- Modelled from the spec: one work-item of the simulate kernel.  It
"advances every live particle's physical state by one timestep"; a slot is
live while its lifetime is positive ("logically dead once lifetime ≤ 0").
"Slots whose lifetime crosses ≤ 0 are pushed back onto the Dead List and
excluded from the Alive List; surviving slots are appended to the Alive
List". -/
def simulateWorkItem (dt : ℚ) (g : GpuState) (slot : Nat) : GpuState :=
  match g.pool[slot]? with
  | none => g
  | some p =>
    if 0 < p.life then
      if (p.advance dt).life ≤ 0 then
        { g with pool := g.pool.set slot (p.advance dt), free := slot :: g.free }
      else
        { g with pool := g.pool.set slot (p.advance dt), alive := g.alive ++ [slot] }
    else g

/-- Modelled from the spec: the simulate kernel run over `threads` threads;
thread `i` handles pool slot `i` when `i` is below the header's
`maxParticles`.  The host has reset the alive counter before the dispatch. -/
def simulateKernel (dt : ℚ) (threads maxParticles : Nat) (g : GpuState) : GpuState :=
  (List.range (min threads maxParticles)).foldl (simulateWorkItem dt) { g with alive := [] }

/-- Execution of one submitted command against the buffers the host has
uploaded (`h`).  The emit pass reads the staging buffer `mpEmitList`, which
has `mMaxEmitPerFrame` entries: `h.emitList` is what it reads only when the
uploaded batch fits, and the statements about the GPU side are made for such
batches (`ParticleSystem.EmitsWithinLimits`).  The sort pass only reorders the
alive list and the draw only reads. -/
def runCommand (emitThreads : Nat) (h : ParticleSystem) (g : GpuState) : Command → GpuState
  | Command.dispatch Pass.emit _ gy _ =>
    match h.emitCB with
    | some cb => emitKernel g h.emitList cb.numEmit (gy * emitThreads)
    | none => g
  | Command.dispatch Pass.simulate gx _ _ =>
    match h.simulateCB with
    | some cb => simulateKernel cb.dt (gx * h.mSimulateThreads) cb.maxParticles g
    | none => g
  | Command.dispatch Pass.sort _ _ _ => g
  | Command.drawIndirect => g

/-- The engine as a whole: host state and GPU state. -/
structure Engine where
  host : ParticleSystem
  gpu : GpuState
  deriving DecidableEq, Repr

/-- A pool entry with lifetime zero. -/
def deadParticle : Particle :=
  { pos := ⟨0, 0, 0⟩, vel := ⟨0, 0, 0⟩, accel := ⟨0, 0, 0⟩
    scale := 0, growth := 0, life := 0, rot := 0, rotVel := 0 }

/-- The engine after construction.  Modelled from the spec: a fresh pool holds
no live particle (the pre-populated dead list "establish[es] the closed-pool
invariant").  The stack is what the constructor uploaded: `deadListCounter`
entries of `deadList`, the last one on top. -/
def Engine.create (maxParticles maxEmitPerFrame : Nat) (sorted : Bool)
    (simThreads : Nat × Nat × Nat) (emitter : EmitterData) (timer : ℚ) : Engine :=
  let h := ParticleSystem.create maxParticles maxEmitPerFrame sorted simThreads emitter timer
  { host := h
    gpu :=
      { free := (h.deadList.take h.deadListCounter).reverse
        pool := List.replicate h.mMaxParticles deadParticle
        alive := [] } }

/-- The GPU runs, in order, the commands a host call has appended. -/
def Engine.submit (emitThreads : Nat) (s : Engine) (h : ParticleSystem) : Engine :=
  { host := h
    gpu := (h.commands.drop s.host.commands.length).foldl (runCommand emitThreads h) s.gpu }

/-- A call of `emit` followed by the GPU work it submits. -/
def Engine.emit (emitThreads : Nat) (s : Engine) (num : Nat)
    (draws : Nat → ParticleDraw) : Engine :=
  s.submit emitThreads (s.host.emit emitThreads num draws)

/-- A call of `update` followed by the GPU work it submits. -/
def Engine.update (emitThreads : Nat) (s : Engine) (dt : ℚ) (view : List ℚ) (r : Int)
    (draws : Nat → ParticleDraw) : Engine :=
  s.submit emitThreads (s.host.update emitThreads dt view r draws)

/-- A call of `render` followed by the GPU work it submits. -/
def Engine.render (emitThreads : Nat) (s : Engine) (view proj : List ℚ) : Engine :=
  s.submit emitThreads (s.host.render view proj)

/-- Slot `i` holds a live particle: its lifetime is positive. -/
def GpuState.live (g : GpuState) (i : Nat) : Prop :=
  ∃ p, g.pool[i]? = some p ∧ 0 < p.life

/-- The dead list is exact for capacity `cap`: the pool has `cap` slots, no
slot occurs twice on the dead list, and a number is on the dead list exactly
when it is a slot below `cap` that holds no live particle. -/
def GpuState.DeadListExact (g : GpuState) (cap : Nat) : Prop :=
  g.pool.length = cap ∧ g.free.Nodup ∧ ∀ i, i ∈ g.free ↔ (i < cap ∧ ¬ g.live i)

/-- Slot `i` is mid-transition: it holds a live particle that is not on the
alive list, because it was emitted after the last simulate pass or because
that pass did not reach it. -/
def GpuState.midTransition (g : GpuState) (i : Nat) : Prop :=
  g.live i ∧ i ∉ g.alive

/-- The closed-pool invariant for capacity `cap`: the dead list is exact, no
slot occurs twice on the alive list, and every slot on the alive list holds a
live particle. -/
def GpuState.ClosedPool (g : GpuState) (cap : Nat) : Prop :=
  g.DeadListExact cap ∧ g.alive.Nodup ∧ ∀ i, i ∈ g.alive → g.live i

/-- An emission of `num` particles stays within the engine's limits: the batch
fits the staging buffer of `mMaxEmitPerFrame` entries and every particle of
the batch has a positive lifetime. -/
def ParticleSystem.EmitsWithinLimits (ps : ParticleSystem) (num : Nat)
    (draws : Nat → ParticleDraw) : Prop :=
  num ≤ ps.mMaxEmitPerFrame ∧
    ∀ i, i < num → 0 < (sampleParticle ps.mEmitter (draws i)).life

/-- States reachable from `s0` by calls of `emit`, `update` and `render` whose
emissions stay within the engine's limits (for `update`, when the timer
triggers an emission). -/
inductive Engine.Reachable (emitThreads : Nat) (s0 : Engine) : Engine → Prop where
  | init : Engine.Reachable emitThreads s0 s0
  | emit (s : Engine) (num : Nat) (draws : Nat → ParticleDraw) :
      Engine.Reachable emitThreads s0 s →
      s.host.EmitsWithinLimits num draws →
      Engine.Reachable emitThreads s0 (s.emit emitThreads num draws)
  | update (s : Engine) (dt : ℚ) (view : List ℚ) (r : Int) (draws : Nat → ParticleDraw) :
      Engine.Reachable emitThreads s0 s →
      (s.host.mEmitter.emitFrequency ≤ s.host.mEmitTimer + dt →
        s.host.EmitsWithinLimits (emitRequest s.host.mEmitter r).toNat draws) →
      Engine.Reachable emitThreads s0 (s.update emitThreads dt view r draws)
  | render (s : Engine) (view proj : List ℚ) :
      Engine.Reachable emitThreads s0 s →
      Engine.Reachable emitThreads s0 (s.render emitThreads view proj)

/-! ## Ranges and sample values -/

/-- The interval "mean plus or minus offset" for a scalar field. -/
def withinMeanOffset (v mean off : ℚ) : Prop := mean - off ≤ v ∧ v ≤ mean + off

instance (v mean off : ℚ) : Decidable (withinMeanOffset v mean off) := by
  unfold withinMeanOffset; infer_instance

/-- The interval "mean plus or minus offset", component-wise, for a `vec3`. -/
def vec3.withinMeanOffset (v mean off : vec3) : Prop :=
  Falcor.withinMeanOffset v.x mean.x off.x ∧ Falcor.withinMeanOffset v.y mean.y off.y ∧
    Falcor.withinMeanOffset v.z mean.z off.z

/-- An emitter record used in the concrete checks. -/
def exampleEmitter : EmitterData :=
  { duration := 3, durationOffset := 0, emitFrequency := 1
    emitCount := 2, emitCountOffset := 1
    spawnPos := ⟨0, 0, 0⟩, spawnPosOffset := ⟨0, 0, 0⟩
    vel := ⟨0, 1, 0⟩, velOffset := ⟨0, 0, 0⟩
    accel := ⟨0, 0, 0⟩, accelOffset := ⟨0, 0, 0⟩
    scale := 2, scaleOffset := 0
    growth := 0, growthOffset := 0
    billboardRotation := 0, billboardRotationOffset := 0
    billboardRotationVel := 0, billboardRotationVelOffset := 0 }

/-- The draw in which every call of the generator returns zero. -/
def zeroDraw : ParticleDraw :=
  { pos := ⟨0, 0, 0⟩, vel := ⟨0, 0, 0⟩, accel := ⟨0, 0, 0⟩
    scale := 0, growth := 0, life := 0, rot := 0, rotVel := 0 }

/-- An unsorted engine of 1000 particles whose simulate program has 256
threads per group. -/
def examplePS : ParticleSystem :=
  ParticleSystem.create 1000 8 false (256, 1, 1) exampleEmitter 0

instance GpuState.decidableLive (g : GpuState) (i : Nat) : Decidable (g.live i) :=
  match h : g.pool[i]? with
  | none => isFalse (fun ⟨_, hp, _⟩ => Option.noConfusion (h.symm.trans hp))
  | some p =>
    if hl : 0 < p.life then isTrue ⟨p, h, hl⟩
    else isFalse (fun ⟨_, hq, hql⟩ => hl (Option.some.inj (h.symm.trans hq) ▸ hql))

/-- Number of pool slots below `cap` that hold a live particle. -/
def GpuState.liveCount (g : GpuState) (cap : Nat) : Nat :=
  ((List.range cap).filter fun i => decide (g.live i)).length

instance GpuState.decidableMidTransition (g : GpuState) (i : Nat) :
    Decidable (g.midTransition i) := by
  unfold GpuState.midTransition; infer_instance

/-- Number of pool slots below `cap` that are mid-transition. -/
def GpuState.midCount (g : GpuState) (cap : Nat) : Nat :=
  ((List.range cap).filter fun i => decide (g.midTransition i)).length

/-- What a reachable state keeps fixed or keeps true. -/
structure Engine.Stable (s0 s : Engine) : Prop where
  capacity : s.host.mMaxParticles = s0.host.mMaxParticles
  threads : s.host.mSimulateThreads = s0.host.mSimulateThreads
  batch : ∀ p ∈ s.host.emitList, 0 < p.life
  pool : s.gpu.ClosedPool s0.host.mMaxParticles

/-- The loop invariant of the simulate pass, `done` being the slots handled so
far: the dead list is exact, the alive list has no repetition and holds only
live slots that were handled, and every handled slot below `cap` is on the
dead list or on the alive list. -/
def GpuState.SimulatedUpTo (g : GpuState) (cap : Nat) (done : List Nat) : Prop :=
  g.DeadListExact cap ∧ g.alive.Nodup ∧ (∀ i, i ∈ g.alive → g.live i ∧ i ∈ done) ∧
    ∀ i, i ∈ done → i < cap → i ∈ g.free ∨ i ∈ g.alive

/-- An engine of four slots whose emitter hands out lifetime zero. -/
def zeroLifeEngine : Engine :=
  Engine.create 4 4 false (256, 1, 1) { exampleEmitter with duration := 0 } 0

/-- An engine of four slots with the example emitter (lifetime 3). -/
def exampleEngine : Engine :=
  Engine.create 4 4 false (256, 1, 1) exampleEmitter 0

/-- The example engine after one `update(3/2)`. -/
def exampleFrame : Engine :=
  exampleEngine.update 64 (3 / 2) [] 0 fun _ => zeroDraw

/-- An engine of five slots whose simulate program has two threads per
group. -/
def uncoveredEngine : Engine :=
  Engine.create 5 4 false (2, 1, 1) exampleEmitter 0

/-! ## Host-side reachability and the state at the simulate dispatch -/

/-- The state `update` has reached when it issues the simulate dispatch
(`ParticleSystem.cpp:195-222`): every statement of `update` except the final
`dispatch`. -/
def ParticleSystem.beforeSimulate (emitThreads : Nat) (ps : ParticleSystem) (dt : ℚ)
    (view : List ℚ) (r : Int) (draws : Nat → ParticleDraw) : ParticleSystem :=
  let step := timerStep ps.mEmitTimer dt ps.mEmitter.emitFrequency
  let ps1 : ParticleSystem := { ps with mEmitTimer := step.1 }
  let ps2 : ParticleSystem :=
    if step.2 then
      ParticleSystem.emit emitThreads ps1 (emitRequest ps1.mEmitter r).toNat draws
    else ps1
  let ps3 : ParticleSystem :=
    if ps2.mShouldSort then
      { ps2 with
        simulateCB := some { view := some view, dt := dt, maxParticles := ps2.mMaxParticles }
        aliveList := ps2.mSortDataReset.take ps2.mMaxParticles ++
          ps2.aliveList.drop ps2.mMaxParticles }
    else
      { ps2 with
        simulateCB := some { view := none, dt := dt, maxParticles := ps2.mMaxParticles } }
  { ps3 with aliveListCounter := 0 }

/-- The entry `initSortResources` fills the reset buffer with: index
`(uint32_t)(-1)` and depth `FLT_MAX`. -/
def sortSentinel : SortData := { index := 4294967295, depth := floatMax }

/-- Host states reachable from `ps0` by the public calls and by `emit`. -/
inductive ParticleSystem.Reachable (emitThreads : Nat) (ps0 : ParticleSystem) :
    ParticleSystem → Prop where
  | init : ParticleSystem.Reachable emitThreads ps0 ps0
  | emit (ps : ParticleSystem) (num : Nat) (draws : Nat → ParticleDraw) :
      ParticleSystem.Reachable emitThreads ps0 ps →
      ParticleSystem.Reachable emitThreads ps0 (ps.emit emitThreads num draws)
  | update (ps : ParticleSystem) (dt : ℚ) (view : List ℚ) (r : Int)
      (draws : Nat → ParticleDraw) :
      ParticleSystem.Reachable emitThreads ps0 ps →
      ParticleSystem.Reachable emitThreads ps0 (ps.update emitThreads dt view r draws)
  | render (ps : ParticleSystem) (view proj : List ℚ) :
      ParticleSystem.Reachable emitThreads ps0 ps →
      ParticleSystem.Reachable emitThreads ps0 (ps.render view proj)
  | setParticleDuration (ps : ParticleSystem) (a b : ℚ) :
      ParticleSystem.Reachable emitThreads ps0 ps →
      ParticleSystem.Reachable emitThreads ps0 (ps.setParticleDuration a b)
  | setEmitData (ps : ParticleSystem) (a b : Nat) (f : ℚ) :
      ParticleSystem.Reachable emitThreads ps0 ps →
      ParticleSystem.Reachable emitThreads ps0 (ps.setEmitData a b f)
  | setSpawnPos (ps : ParticleSystem) (a b : vec3) :
      ParticleSystem.Reachable emitThreads ps0 ps →
      ParticleSystem.Reachable emitThreads ps0 (ps.setSpawnPos a b)
  | setVelocity (ps : ParticleSystem) (a b : vec3) :
      ParticleSystem.Reachable emitThreads ps0 ps →
      ParticleSystem.Reachable emitThreads ps0 (ps.setVelocity a b)
  | setAcceleration (ps : ParticleSystem) (a b : vec3) :
      ParticleSystem.Reachable emitThreads ps0 ps →
      ParticleSystem.Reachable emitThreads ps0 (ps.setAcceleration a b)
  | setScale (ps : ParticleSystem) (a b : ℚ) :
      ParticleSystem.Reachable emitThreads ps0 ps →
      ParticleSystem.Reachable emitThreads ps0 (ps.setScale a b)
  | setGrowth (ps : ParticleSystem) (a b : ℚ) :
      ParticleSystem.Reachable emitThreads ps0 ps →
      ParticleSystem.Reachable emitThreads ps0 (ps.setGrowth a b)
  | setBillboardRotation (ps : ParticleSystem) (a b : ℚ) :
      ParticleSystem.Reachable emitThreads ps0 ps →
      ParticleSystem.Reachable emitThreads ps0 (ps.setBillboardRotation a b)
  | setBillboardRotationVelocity (ps : ParticleSystem) (a b : ℚ) :
      ParticleSystem.Reachable emitThreads ps0 ps →
      ParticleSystem.Reachable emitThreads ps0 (ps.setBillboardRotationVelocity a b)

/-- A sorted engine of eight slots with the example emitter. -/
def sortedExamplePS : ParticleSystem :=
  ParticleSystem.create 8 8 true (4, 1, 1) exampleEmitter 0

/-- What no host call changes after construction. -/
structure ParticleSystem.SameResources (ps0 ps : ParticleSystem) : Prop where
  sort : ps.mShouldSort = ps0.mShouldSort
  capacity : ps.mMaxParticles = ps0.mMaxParticles
  reset : ps.mSortDataReset = ps0.mSortDataReset
  maxEmit : ps.mMaxEmitPerFrame = ps0.mMaxEmitPerFrame

/-! ## Lemmas on the numeric helpers -/

theorem ceilLog2From_spec (fuel : Nat) :
    ∀ x k, (∀ j, j < k → 2 ^ j < x) → x ≤ 2 ^ (k + fuel) →
      x ≤ 2 ^ ceilLog2From fuel x k ∧ ∀ j, j < ceilLog2From fuel x k → 2 ^ j < x := by
  induction fuel with
  | zero =>
    intro x k hlow hup
    exact ⟨by simpa [ceilLog2From] using hup, by simpa [ceilLog2From] using hlow⟩
  | succ f ih =>
    intro x k hlow hup
    unfold ceilLog2From
    split
    · next h => exact ⟨h, hlow⟩
    · next h =>
      apply ih
      · intro j hj
        rcases Nat.lt_succ_iff_lt_or_eq.mp hj with h1 | h1
        · exact hlow j h1
        · subst h1; omega
      · have hk : k + 1 + f = k + (f + 1) := by omega
        rw [hk]; exact hup

theorem ceilLog2_spec (x : Nat) :
    x ≤ 2 ^ ceilLog2 x ∧ ∀ j, j < ceilLog2 x → 2 ^ j < x := by
  apply ceilLog2From_spec
  · intro j hj; omega
  · simpa using (Nat.lt_two_pow x).le

theorem ceilLog2_le_of_le_pow {x j : Nat} (h : x ≤ 2 ^ j) : ceilLog2 x ≤ j := by
  by_contra hlt
  have := (ceilLog2_spec x).2 j (by omega)
  omega

theorem generateIndices_eq (size : Nat) :
    ∀ counter, generateIndices size counter = List.range' counter size := by
  induction size with
  | zero => intro counter; rfl
  | succ n ih => intro counter; simp [generateIndices, ih, List.range'_succ]

/-! ## Construction: capacity and dead list -/

theorem floorLog2From_spec (fuel : Nat) :
    ∀ x, 1 ≤ x → x ≤ fuel →
      2 ^ floorLog2From fuel x ≤ x ∧ x < 2 ^ (floorLog2From fuel x + 1) := by
  induction fuel with
  | zero => intro x h1 h2; omega
  | succ f ih =>
    intro x h1 h2
    unfold floorLog2From
    split
    · next h => exact ⟨by simpa using h1, by simpa using h⟩
    · next h =>
      obtain ⟨hlo, hhi⟩ := ih (x / 2) (by omega) (by omega)
      rw [Nat.pow_succ] at hhi ⊢
      rw [Nat.pow_succ]
      omega

theorem floorLog2_spec (x : Nat) (h1 : 1 ≤ x) :
    2 ^ floorLog2 x ≤ x ∧ x < 2 ^ (floorLog2 x + 1) :=
  floorLog2From_spec x x h1 le_rfl

theorem succ_pow_ge (a m : Nat) : a ^ (m + 1) + (m + 1) * a ^ m ≤ (a + 1) ^ (m + 1) := by
  induction m with
  | zero => simp
  | succ m ih =>
    have h1 : (a + 1) ^ (m + 1 + 1) = (a + 1) ^ (m + 1) * (a + 1) := pow_succ _ _
    have h2 : a ^ (m + 1 + 1) = a ^ (m + 1) * a := pow_succ _ _
    have h3 : a ^ (m + 1) = a ^ m * a := pow_succ _ _
    have h4 : (a ^ (m + 1) + (m + 1) * a ^ m) * (a + 1) ≤ (a + 1) ^ (m + 1) * (a + 1) :=
      Nat.mul_le_mul_right _ ih
    nlinarith [Nat.zero_le (a ^ m), Nat.zero_le ((m + 1) * a ^ m)]

theorem two_mul_pow_le_succ_pow (a N : Nat) (hN : a ≤ N) (hpos : 1 ≤ N) :
    2 * a ^ N ≤ (a + 1) ^ N := by
  obtain ⟨m, rfl⟩ : ∃ m, N = m + 1 := ⟨N - 1, by omega⟩
  have h := succ_pow_ge a m
  have h3 : a ^ (m + 1) = a ^ m * a := pow_succ _ _
  have h5 : a ^ m * a ≤ a ^ m * (m + 1) := Nat.mul_le_mul_left _ hN
  nlinarith [h, h5]

theorem ceilLog2f_eq_ceilLog2 (x : Nat) (h1 : 1 ≤ x) (h2 : x ≤ 2 ^ 21) :
    ceilLog2f x = ceilLog2 x := by
  obtain ⟨hlo, hhi⟩ := floorLog2_spec x h1
  unfold ceilLog2f
  simp only
  split
  · next hx =>
    apply le_antisymm
    · by_contra hlt
      have hlt2 : ceilLog2 x < floorLog2 x := by omega
      have hle := (ceilLog2_spec x).1
      have hmono : 2 ^ ceilLog2 x < 2 ^ floorLog2 x :=
        Nat.pow_lt_pow_right (by norm_num) hlt2
      omega
    · exact ceilLog2_le_of_le_pow hx.le
  · next hx =>
    have hk : floorLog2 x ≤ 20 := by
      by_contra hgt
      have hmono : 2 ^ 21 ≤ 2 ^ floorLog2 x := Nat.pow_le_pow_right (by norm_num) (by omega)
      have hne : x ≠ 2 ^ 21 := by
        intro he
        have h22 : x < 2 ^ 22 := by rw [he]; norm_num
        have hk21 : floorLog2 x = 21 := by
          by_contra hn
          have : 2 ^ 22 ≤ 2 ^ floorLog2 x := Nat.pow_le_pow_right (by norm_num) (by omega)
          omega
        exact hx (by rw [hk21]; exact he)
      omega
    have hL : floorLog2 (floorLog2 x) ≤ 4 := by
      by_contra hgt
      rcases Nat.eq_zero_or_pos (floorLog2 x) with h0 | hp
      · rw [h0] at hgt
        exact hgt (by decide)
      · have := (floorLog2_spec (floorLog2 x) hp).1
        have hmono : 2 ^ 5 ≤ 2 ^ floorLog2 (floorLog2 x) :=
          Nat.pow_le_pow_right (by norm_num) (by omega)
        omega
    have hN : 2 ^ floorLog2 x ≤ 2 ^ (24 - floorLog2 (floorLog2 x)) :=
      Nat.pow_le_pow_right (by norm_num) (by omega)
    have hb := two_mul_pow_le_succ_pow (2 ^ floorLog2 x)
      (2 ^ (24 - floorLog2 (floorLog2 x))) hN Nat.one_le_two_pow
    have hx1 : 2 ^ floorLog2 x + 1 ≤ x := by omega
    have hpow : (2 ^ floorLog2 x + 1) ^ 2 ^ (24 - floorLog2 (floorLog2 x)) ≤
        x ^ 2 ^ (24 - floorLog2 (floorLog2 x)) := Nat.pow_le_pow_left hx1 _
    rw [if_neg (by omega)]
    apply le_antisymm
    · by_contra hlt
      have hlt2 : ceilLog2 x ≤ floorLog2 x := by omega
      have hle := (ceilLog2_spec x).1
      have hmono : 2 ^ ceilLog2 x ≤ 2 ^ floorLog2 x :=
        Nat.pow_le_pow_right (by norm_num) hlt2
      omega
    · exact ceilLog2_le_of_le_pow hhi.le

/-- An unsorted engine keeps the requested capacity, whatever it is. -/
theorem computeMaxParticles_unsorted (n : Nat) : computeMaxParticles false n = n := rfl

/-- For a request `n` with `1 ≤ n ≤ 2 ^ 21` a sorted engine gets the least
power of two that is `≥ n`; a requested power of two is kept. -/
theorem computeMaxParticles_sorted (n : Nat) (h1 : 1 ≤ n) (h2 : n ≤ 2 ^ 21) :
    (∃ k, computeMaxParticles true n = 2 ^ k ∧ n ≤ 2 ^ k ∧ ∀ j, n ≤ 2 ^ j → k ≤ j) ∧
    (∀ m, n = 2 ^ m → computeMaxParticles true n = n) := by
  have hfloat : floatOfUInt32 n = n := by
    unfold floatOfUInt32
    rw [if_pos (by omega)]
  have hcap : computeMaxParticles true n = 2 ^ ceilLog2 n := by
    have hk : ceilLog2 n ≤ 21 := ceilLog2_le_of_le_pow h2
    have hlt : 2 ^ ceilLog2 n < 2 ^ 32 :=
      Nat.pow_lt_pow_right (by norm_num) (by omega)
    simp only [computeMaxParticles, if_true, hfloat, pow2CeilLog2, toUInt32]
    rw [if_neg (by omega), ceilLog2f_eq_ceilLog2 n h1 h2, Nat.mod_eq_of_lt hlt]
  refine ⟨⟨ceilLog2 n, hcap, (ceilLog2_spec n).1, ?_⟩, ?_⟩
  · intro j hj
    exact ceilLog2_le_of_le_pow hj
  · intro m hm
    rw [hcap]
    have hle : ceilLog2 n ≤ m := ceilLog2_le_of_le_pow hm.le
    have hge : n ≤ 2 ^ ceilLog2 n := (ceilLog2_spec n).1
    have hmono : 2 ^ ceilLog2 n ≤ 2 ^ m := Nat.pow_le_pow_right (by norm_num) hle
    omega

/-- The spec's example: a sorted engine asked for 1000 particles gets 1024, and
a requested 1024 stays 1024. -/
theorem computeMaxParticles_examples :
    computeMaxParticles true 1000 = 1024 ∧ computeMaxParticles true 1024 = 1024 := by
  obtain ⟨⟨k, hk, hge, hleast⟩, _⟩ := computeMaxParticles_sorted 1000 (by decide) (by decide)
  have h10 : k ≤ 10 := hleast 10 (by decide)
  have hk10 : k = 10 := by
    by_contra hne
    have : 2 ^ k ≤ 2 ^ 9 := Nat.pow_le_pow_right (by norm_num) (by omega)
    omega
  rw [hk10] at hk
  exact ⟨hk, (computeMaxParticles_sorted 1024 (by decide) (by decide)).2 10 (by decide)⟩

set_option exponentiation.threshold 2000000 in
/-- C1, the code at the failing inputs: a sorted engine asked for
2^24 + 1 = 16777217 particles gets 16777216, because `(float)16777217` is
16777216; and already a request of 2^21 + 1 = 2097153 gets 2097152, because
the single-precision `log2(2097153)` rounds to 21.  In both cases the capacity
is a power of two below the request. -/
theorem computeMaxParticles_below_request :
    computeMaxParticles true 16777217 = 16777216 ∧
    ¬ (16777217 ≤ computeMaxParticles true 16777217) ∧
    computeMaxParticles true 2097153 = 2097152 ∧
    ¬ (2097153 ≤ computeMaxParticles true 2097153) := by
  decide

/-- C2: after construction with actual capacity `C` the dead list has exactly
`C` entries, entry `i` is `i`, no entry repeats, an index occurs in it exactly
when it is below `C`, and the dead-list counter is `C`. -/
theorem create_deadList (maxParticles maxEmitPerFrame : Nat) (sorted : Bool)
    (simThreads : Nat × Nat × Nat) (emitter : EmitterData) (timer : ℚ) :
    let ps := ParticleSystem.create maxParticles maxEmitPerFrame sorted simThreads emitter timer
    ps.mMaxParticles = computeMaxParticles sorted maxParticles ∧
    ps.deadList.length = ps.mMaxParticles ∧
    (∀ i, i < ps.mMaxParticles → ps.deadList[i]? = some i) ∧
    ps.deadList.Nodup ∧
    (∀ v, v ∈ ps.deadList ↔ v < ps.mMaxParticles) ∧
    ps.deadListCounter = ps.mMaxParticles := by
  intro ps
  have hdl : ps.deadList = List.range ps.mMaxParticles := by
    show generateIndices (computeMaxParticles sorted maxParticles) 0 =
      List.range (computeMaxParticles sorted maxParticles)
    rw [generateIndices_eq, List.range_eq_range']
  refine ⟨rfl, ?_, ?_, ?_, ?_, rfl⟩
  · rw [hdl, List.length_range]
  · intro i hi
    rw [hdl, List.getElem?_range hi]
  · rw [hdl]; exact List.nodup_range _
  · intro v
    rw [hdl, List.mem_range]

/-! ## The emission timer -/

/-- C4: `update(dt)` leaves the timer at `t + dt` and submits only the simulate
dispatch when `t + dt < f`; when `t + dt ≥ f` it leaves the timer at
`t + dt - f` and submits exactly one emit dispatch before the simulate
dispatch. -/
theorem update_timer (emitThreads : Nat) (ps : ParticleSystem) (dt : ℚ) (view : List ℚ)
    (r : Int) (draws : Nat → ParticleDraw) :
    let ps1 := ps.update emitThreads dt view r draws
    let sim := Command.dispatch Pass.simulate
      (simulateGroups ps.mMaxParticles ps.mSimulateThreads) 1 1
    (ps.mEmitTimer + dt < ps.mEmitter.emitFrequency →
      ps1.mEmitTimer = ps.mEmitTimer + dt ∧ ps1.commands = ps.commands ++ [sim]) ∧
    (ps.mEmitter.emitFrequency ≤ ps.mEmitTimer + dt →
      ps1.mEmitTimer = ps.mEmitTimer + dt - ps.mEmitter.emitFrequency ∧
      ps1.commands = ps.commands ++
        [Command.dispatch Pass.emit 1
          (div_round_up (emitRequest ps.mEmitter r).toNat emitThreads) 1, sim]) := by
  intro ps1 sim
  constructor
  · intro h
    have hn : ¬ ps.mEmitter.emitFrequency ≤ ps.mEmitTimer + dt := not_le.mpr h
    simp only [ps1, sim, ParticleSystem.update, timerStep, if_neg hn]
    cases hs : ps.mShouldSort <;> simp
  · intro h
    simp only [ps1, sim, ParticleSystem.update, timerStep, if_pos h, ParticleSystem.emit]
    cases hs : ps.mShouldSort <;> simp

/-- C4, witness: from the fresh example engine (timer 0, frequency 1) a step of
3/5 submits no emit dispatch, and a step of 3/2 submits one and leaves 1/2. -/
theorem update_timer_witness :
    ((examplePS.update 64 (3 / 5) [] 0 fun _ => zeroDraw).mEmitTimer =
        examplePS.mEmitTimer + 3 / 5 ∧
      (examplePS.update 64 (3 / 5) [] 0 fun _ => zeroDraw).commands =
        examplePS.commands ++
          [Command.dispatch Pass.simulate
            (simulateGroups examplePS.mMaxParticles examplePS.mSimulateThreads) 1 1]) ∧
    ((examplePS.update 64 (3 / 2) [] 0 fun _ => zeroDraw).mEmitTimer =
        examplePS.mEmitTimer + 3 / 2 - examplePS.mEmitter.emitFrequency ∧
      (examplePS.update 64 (3 / 2) [] 0 fun _ => zeroDraw).commands =
        examplePS.commands ++
          [Command.dispatch Pass.emit 1
            (div_round_up (emitRequest examplePS.mEmitter 0).toNat 64) 1,
           Command.dispatch Pass.simulate
            (simulateGroups examplePS.mMaxParticles examplePS.mSimulateThreads) 1 1]) :=
  ⟨(update_timer 64 examplePS (3 / 5) [] 0 fun _ => zeroDraw).1
      (by norm_num [examplePS, ParticleSystem.create, exampleEmitter]),
   (update_timer 64 examplePS (3 / 2) [] 0 fun _ => zeroDraw).2
      (by norm_num [examplePS, ParticleSystem.create, exampleEmitter])⟩

/-- C5 (as amended): when the accumulated timer stays below the emission
frequency (`t + dt < f`), `update(dt)` submits no emit dispatch and writes
neither the dead list nor its counter. -/
theorem update_below_threshold (emitThreads : Nat) (ps : ParticleSystem) (dt : ℚ)
    (view : List ℚ) (r : Int) (draws : Nat → ParticleDraw)
    (h : ps.mEmitTimer + dt < ps.mEmitter.emitFrequency) :
    (ps.update emitThreads dt view r draws).deadListCounter = ps.deadListCounter ∧
    (ps.update emitThreads dt view r draws).deadList = ps.deadList ∧
    (ps.update emitThreads dt view r draws).commands = ps.commands ++
      [Command.dispatch Pass.simulate
        (simulateGroups ps.mMaxParticles ps.mSimulateThreads) 1 1] := by
  have hn : ¬ ps.mEmitter.emitFrequency ≤ ps.mEmitTimer + dt := not_le.mpr h
  simp only [ParticleSystem.update, timerStep, if_neg hn]
  cases hs : ps.mShouldSort <;> simp

/-- C5, witness: the fresh example engine stepped by 3/5. -/
theorem update_below_threshold_witness :
    examplePS.mEmitTimer + 3 / 5 < examplePS.mEmitter.emitFrequency ∧
    (examplePS.update 64 (3 / 5) [] 0 fun _ => zeroDraw).deadListCounter =
      examplePS.deadListCounter ∧
    (examplePS.update 64 (3 / 5) [] 0 fun _ => zeroDraw).deadList = examplePS.deadList ∧
    (examplePS.update 64 (3 / 5) [] 0 fun _ => zeroDraw).commands = examplePS.commands ++
      [Command.dispatch Pass.simulate
        (simulateGroups examplePS.mMaxParticles examplePS.mSimulateThreads) 1 1] :=
  ⟨by norm_num [examplePS, ParticleSystem.create, exampleEmitter],
   update_below_threshold 64 examplePS (3 / 5) [] 0 (fun _ => zeroDraw)
    (by norm_num [examplePS, ParticleSystem.create, exampleEmitter])⟩

/-- C5, counterexample: with frequency 1, two successive calls `update(3/5)` on
the fresh example engine; the second delta is below the frequency, yet the
call uploads an emit header for two particles and submits an emit dispatch. -/
theorem update_small_delta_emits :
    ((3 / 5 : ℚ) < examplePS.mEmitter.emitFrequency) ∧
    ((examplePS.update 64 (3 / 5) [] 0 fun _ => zeroDraw).update 64 (3 / 5) [] 0
        fun _ => zeroDraw).emitCB = some { numEmit := 2, maxParticles := 1000 } ∧
    ((examplePS.update 64 (3 / 5) [] 0 fun _ => zeroDraw).update 64 (3 / 5) [] 0
        fun _ => zeroDraw).commands =
      [Command.dispatch Pass.simulate 3 1 1, Command.dispatch Pass.emit 1 1 1,
        Command.dispatch Pass.simulate 3 1 1] := by
  refine ⟨?_, ?_, ?_⟩
  · norm_num [examplePS, ParticleSystem.create, exampleEmitter]
  · norm_num [ParticleSystem.update, ParticleSystem.emit, timerStep, examplePS,
      ParticleSystem.create, exampleEmitter, computeMaxParticles, emitRequest, wrapInt32]
    rfl
  · norm_num [ParticleSystem.update, ParticleSystem.emit, timerStep, examplePS,
      ParticleSystem.create, exampleEmitter, computeMaxParticles, simulateGroups,
      emitRequest, wrapInt32, div_round_up]
    rfl

/-! ## The emission count -/

theorem wrapInt32_of_inRange {v : Int} (h1 : -2 ^ 31 ≤ v) (h2 : v < 2 ^ 31) :
    wrapInt32 v = v := by
  unfold wrapInt32
  rw [Int.emod_eq_of_lt (by omega) (by omega)]
  omega

/-- C6 (as amended): when the sum `emitCount + r` stays inside `int32_t`, the
count `update` requests from `emit` is `max(emitCount + r, 0)`; it is never
negative, it is passed on unchanged as the unsigned argument, and it lies in
`[max(emitCount - emitCountOffset, 0), max(emitCount + emitCountOffset, 0)]`. -/
theorem emitRequest_bounds (e : EmitterData) (r : Int) (hr : ValidCountDraw e r)
    (h1 : -2 ^ 31 ≤ e.emitCount + r) (h2 : e.emitCount + r < 2 ^ 31) :
    emitRequest e r = max (e.emitCount + r) 0 ∧
    0 ≤ emitRequest e r ∧
    ((emitRequest e r).toNat : Int) = emitRequest e r ∧
    max (e.emitCount - e.emitCountOffset) 0 ≤ emitRequest e r ∧
    emitRequest e r ≤ max (e.emitCount + e.emitCountOffset) 0 := by
  obtain ⟨hlo, hhi⟩ := hr
  have hreq : emitRequest e r = max (e.emitCount + r) 0 := by
    unfold emitRequest
    rw [wrapInt32_of_inRange h1 h2]
  have hnn : 0 ≤ emitRequest e r := by
    rw [hreq]; exact le_max_right _ _
  refine ⟨hreq, hnn, Int.toNat_of_nonneg hnn, ?_, ?_⟩
  · rw [hreq]
    exact max_le_max (by omega) le_rfl
  · rw [hreq]
    exact max_le_max (by omega) le_rfl

/-- C6, witness: the example emitter (count 2, offset 1) with the draw -1. -/
theorem emitRequest_bounds_witness :
    ValidCountDraw exampleEmitter (-1) ∧
    emitRequest exampleEmitter (-1) = max (exampleEmitter.emitCount + -1) 0 ∧
    0 ≤ emitRequest exampleEmitter (-1) ∧
    ((emitRequest exampleEmitter (-1)).toNat : Int) = emitRequest exampleEmitter (-1) ∧
    max (exampleEmitter.emitCount - exampleEmitter.emitCountOffset) 0 ≤
      emitRequest exampleEmitter (-1) ∧
    emitRequest exampleEmitter (-1) ≤
      max (exampleEmitter.emitCount + exampleEmitter.emitCountOffset) 0 :=
  ⟨by decide, emitRequest_bounds exampleEmitter (-1) (by decide) (by decide) (by decide)⟩

/-- C6, counterexample: after `setEmitData(4294967291, 0, 1)` the stored count
is -5 and the offset 0; the only draw is 0, the request is clamped to 0, and 0
is not inside `[max(-5 - 0, 0), -5 + 0]`. -/
theorem emitRequest_outside_stated_interval :
    (examplePS.setEmitData 4294967291 0 1).mEmitter.emitCount = -5 ∧
    (examplePS.setEmitData 4294967291 0 1).mEmitter.emitCountOffset = 0 ∧
    ValidCountDraw (examplePS.setEmitData 4294967291 0 1).mEmitter 0 ∧
    emitRequest (examplePS.setEmitData 4294967291 0 1).mEmitter 0 = 0 ∧
    ¬ (max ((examplePS.setEmitData 4294967291 0 1).mEmitter.emitCount -
          (examplePS.setEmitData 4294967291 0 1).mEmitter.emitCountOffset) 0 ≤
        emitRequest (examplePS.setEmitData 4294967291 0 1).mEmitter 0 ∧
      emitRequest (examplePS.setEmitData 4294967291 0 1).mEmitter 0 ≤
        (examplePS.setEmitData 4294967291 0 1).mEmitter.emitCount +
          (examplePS.setEmitData 4294967291 0 1).mEmitter.emitCountOffset) := by
  decide

/-! ## The emit batch -/

/-- C7, the code at the failing input: with duration 3, duration offset 0 and
growth offset 2, the draw 2 is one `emit` accepts for the lifetime (it is
taken from the growth interval), and the particle is written with lifetime 5,
outside `[3 - 0, 3 + 0]`. -/
theorem emit_life_uses_growthOffset :
    ((examplePS.setParticleDuration 3 0).setGrowth 0 2).mEmitter.duration = 3 ∧
    ((examplePS.setParticleDuration 3 0).setGrowth 0 2).mEmitter.durationOffset = 0 ∧
    ValidParticleDraw ((examplePS.setParticleDuration 3 0).setGrowth 0 2).mEmitter
      { zeroDraw with life := 2 } ∧
    (sampleParticle ((examplePS.setParticleDuration 3 0).setGrowth 0 2).mEmitter
      { zeroDraw with life := 2 }).life = 5 ∧
    ¬ withinMeanOffset
      (sampleParticle ((examplePS.setParticleDuration 3 0).setGrowth 0 2).mEmitter
        { zeroDraw with life := 2 }).life
      ((examplePS.setParticleDuration 3 0).setGrowth 0 2).mEmitter.duration
      ((examplePS.setParticleDuration 3 0).setGrowth 0 2).mEmitter.durationOffset := by
  norm_num [ParticleSystem.setParticleDuration, ParticleSystem.setGrowth, examplePS,
    ParticleSystem.create, exampleEmitter, zeroDraw, ValidParticleDraw, vec3.withinOffset,
    sampleParticle, withinMeanOffset]

/-- C8 (as amended): when every draw lies in the interval `emit` passes to the
generator, the batch has exactly `num` entries, and in each entry position,
velocity, acceleration, rotation and rotation velocity lie within the
configured mean plus or minus the configured offset, while scale and growth
lie within half the configured mean plus or minus the configured offset. -/
theorem emittedParticles_within (e : EmitterData) (num : Nat) (draws : Nat → ParticleDraw)
    (h : ∀ i, i < num → ValidParticleDraw e (draws i)) :
    (emittedParticles e num draws).length = num ∧
    ∀ i, i < num → ∃ p, (emittedParticles e num draws)[i]? = some p ∧
      p.pos.withinMeanOffset e.spawnPos e.spawnPosOffset ∧
      p.vel.withinMeanOffset e.vel e.velOffset ∧
      p.accel.withinMeanOffset e.accel e.accelOffset ∧
      withinMeanOffset p.scale (e.scale / 2) e.scaleOffset ∧
      withinMeanOffset p.growth (e.growth / 2) e.growthOffset ∧
      withinMeanOffset p.rot e.billboardRotation e.billboardRotationOffset ∧
      withinMeanOffset p.rotVel e.billboardRotationVel e.billboardRotationVelOffset := by
  refine ⟨by simp [emittedParticles], ?_⟩
  intro i hi
  refine ⟨sampleParticle e (draws i), ?_, ?_⟩
  · simp [emittedParticles, List.getElem?_map, List.getElem?_range hi]
  · obtain ⟨⟨hp1, hp2, hp3⟩, ⟨hv1, hv2, hv3⟩, ⟨ha1, ha2, ha3⟩, hs, hg, _, hr, hrv⟩ := h i hi
    simp only [sampleParticle, vec3.withinMeanOffset, vec3.add, withinMeanOffset]
    refine ⟨⟨?_, ?_, ?_⟩, ⟨?_, ?_, ?_⟩, ⟨?_, ?_, ?_⟩, ?_, ?_, ?_, ?_⟩ <;>
      constructor <;> linarith [hp1.1, hp1.2, hp2.1, hp2.2, hp3.1, hp3.2, hv1.1, hv1.2,
        hv2.1, hv2.2, hv3.1, hv3.2, ha1.1, ha1.2, ha2.1, ha2.2, ha3.1, ha3.2, hs.1, hs.2,
        hg.1, hg.2, hr.1, hr.2, hrv.1, hrv.2]

/-- C8, witness: a batch of two particles from the example emitter. -/
theorem emittedParticles_within_witness :
    (emittedParticles exampleEmitter 2 fun _ => zeroDraw).length = 2 ∧
    ∀ i, i < 2 → ∃ p, (emittedParticles exampleEmitter 2 fun _ => zeroDraw)[i]? = some p ∧
      p.pos.withinMeanOffset exampleEmitter.spawnPos exampleEmitter.spawnPosOffset ∧
      p.vel.withinMeanOffset exampleEmitter.vel exampleEmitter.velOffset ∧
      p.accel.withinMeanOffset exampleEmitter.accel exampleEmitter.accelOffset ∧
      withinMeanOffset p.scale (exampleEmitter.scale / 2) exampleEmitter.scaleOffset ∧
      withinMeanOffset p.growth (exampleEmitter.growth / 2) exampleEmitter.growthOffset ∧
      withinMeanOffset p.rot exampleEmitter.billboardRotation
        exampleEmitter.billboardRotationOffset ∧
      withinMeanOffset p.rotVel exampleEmitter.billboardRotationVel
        exampleEmitter.billboardRotationVelOffset :=
  emittedParticles_within exampleEmitter 2 (fun _ => zeroDraw) (fun _ _ => by
    norm_num [ValidParticleDraw, vec3.withinOffset, exampleEmitter, zeroDraw])

/-- C8, counterexample: the example emitter has scale 2 with offset 0 (all
offsets are non-negative); the emitted particle has scale 1, outside
`[2 - 0, 2 + 0]`. -/
theorem emitted_scale_is_halved :
    ValidParticleDraw exampleEmitter zeroDraw ∧
    (emittedParticles exampleEmitter 1 fun _ => zeroDraw)[0]? =
      some (sampleParticle exampleEmitter zeroDraw) ∧
    (sampleParticle exampleEmitter zeroDraw).scale = 1 ∧
    ¬ withinMeanOffset (sampleParticle exampleEmitter zeroDraw).scale
      exampleEmitter.scale exampleEmitter.scaleOffset := by
  refine ⟨?_, ?_, ?_, ?_⟩
  · norm_num [ValidParticleDraw, vec3.withinOffset, exampleEmitter, zeroDraw]
  · simp [emittedParticles]
  · norm_num [sampleParticle, exampleEmitter, zeroDraw]
  · norm_num [sampleParticle, exampleEmitter, zeroDraw, withinMeanOffset]

/-! ## Dispatch sizes -/

/-- C9, the code at the failing input: an unsorted engine of capacity 1000
whose simulate program has 256 threads per group dispatches 3 groups, i.e.
768 threads, fewer than the 1000 pool slots. -/
theorem simulate_dispatch_misses_slots :
    examplePS.mMaxParticles = 1000 ∧ examplePS.mSimulateThreads = 256 ∧
    simulateGroups examplePS.mMaxParticles examplePS.mSimulateThreads = 3 ∧
    (examplePS.update 64 (3 / 5) [] 0 fun _ => zeroDraw).commands =
      [Command.dispatch Pass.simulate 3 1 1] ∧
    ¬ (examplePS.mMaxParticles ≤
        simulateGroups examplePS.mMaxParticles examplePS.mSimulateThreads *
          examplePS.mSimulateThreads) := by
  refine ⟨by decide, by decide, by decide, ?_, by decide⟩
  norm_num [ParticleSystem.update, timerStep, examplePS, ParticleSystem.create,
    exampleEmitter, computeMaxParticles, simulateGroups]

theorem div_round_up_covers (a b : Nat) (hb : 1 ≤ b) : a ≤ div_round_up a b * b := by
  unfold div_round_up
  have h1 := Nat.div_add_mod (a + b - 1) b
  have h2 := Nat.mod_lt (a + b - 1) (show 0 < b by omega)
  have h3 : (a + b - 1) / b * b = b * ((a + b - 1) / b) := Nat.mul_comm _ _
  omega

theorem div_round_up_least (a b : Nat) (hb : 1 ≤ b) :
    div_round_up a b = 0 ∨ (div_round_up a b - 1) * b < a := by
  unfold div_round_up
  rcases Nat.eq_zero_or_pos ((a + b - 1) / b) with h0 | hpos
  · exact Or.inl h0
  · right
    have h1 := Nat.div_mul_le_self (a + b - 1) b
    have h2 : ((a + b - 1) / b - 1) * b = (a + b - 1) / b * b - b := by
      rw [Nat.sub_mul, Nat.one_mul]
    have h3 : b ≤ (a + b - 1) / b * b := Nat.le_mul_of_pos_left b hpos
    omega

/-- C10: for an emit thread-group width `E ≥ 1`, `emit(num)` uploads the header
`(numEmit = num, maxParticles = capacity)` and appends exactly one dispatch,
of `1 x G x 1` groups of the emit program, where `G = div_round_up(num, E)` is
the least group count covering `num` work-items: `G * E ≥ num`, and `G = 0` or
`(G - 1) * E < num`. -/
theorem emit_dispatch (emitThreads : Nat) (ps : ParticleSystem) (num : Nat)
    (draws : Nat → ParticleDraw) (hE : 1 ≤ emitThreads) :
    (ps.emit emitThreads num draws).emitCB =
      some { numEmit := num, maxParticles := ps.mMaxParticles } ∧
    (ps.emit emitThreads num draws).commands =
      ps.commands ++ [Command.dispatch Pass.emit 1 (div_round_up num emitThreads) 1] ∧
    num ≤ div_round_up num emitThreads * emitThreads ∧
    (div_round_up num emitThreads = 0 ∨
      (div_round_up num emitThreads - 1) * emitThreads < num) :=
  ⟨rfl, rfl, div_round_up_covers num emitThreads hE, div_round_up_least num emitThreads hE⟩

/-- C10, witness: 130 particles at 64 threads per group need 3 groups. -/
theorem emit_dispatch_witness :
    div_round_up 130 64 = 3 ∧
    (examplePS.emit 64 130 fun _ => zeroDraw).emitCB =
      some { numEmit := 130, maxParticles := examplePS.mMaxParticles } ∧
    (examplePS.emit 64 130 fun _ => zeroDraw).commands =
      examplePS.commands ++ [Command.dispatch Pass.emit 1 (div_round_up 130 64) 1] ∧
    130 ≤ div_round_up 130 64 * 64 ∧
    (div_round_up 130 64 = 0 ∨ (div_round_up 130 64 - 1) * 64 < 130) :=
  ⟨by decide, emit_dispatch 64 examplePS 130 (fun _ => zeroDraw) (by decide)⟩

/-! ## The closed-pool invariant -/

theorem live_iff_of_pool_set (g g1 : GpuState) (slot : Nat) (q : Particle)
    (hp : g1.pool = g.pool.set slot q) (i : Nat) :
    g1.live i ↔ if i = slot then (slot < g.pool.length ∧ 0 < q.life) else g.live i := by
  unfold GpuState.live
  rw [hp]
  by_cases h : i = slot
  · subst h
    simp only [if_true]
    by_cases hl : i < g.pool.length
    · simp [List.getElem?_set, hl]
    · simp [List.getElem?_set, hl]
  · have h2 : ¬ slot = i := fun e => h e.symm
    simp [List.getElem?_set, h, h2]

theorem emitWorkItem_deadListExact {g : GpuState} {cap : Nat} {p : Particle}
    (hg : g.DeadListExact cap) (hp : 0 < p.life) : (emitWorkItem g p).DeadListExact cap := by
  obtain ⟨hlen, hnd, hmem⟩ := hg
  unfold emitWorkItem
  cases hf : g.free with
  | nil => exact ⟨hlen, hnd, hmem⟩
  | cons slot rest =>
    rw [hf] at hnd hmem
    have hslot := (hmem slot).1 (List.mem_cons_self _ _)
    have hnd2 := List.nodup_cons.1 hnd
    refine ⟨by simpa using hlen, hnd2.2, ?_⟩
    intro i
    have hl := live_iff_of_pool_set g
      { g with free := rest, pool := g.pool.set slot p } slot p rfl i
    simp only at hl ⊢
    rw [hl]
    by_cases h : i = slot
    · subst h
      simp only [if_true]
      constructor
      · intro hi; exact absurd hi hnd2.1
      · rintro ⟨_, hn⟩; exact absurd ⟨by omega, hp⟩ hn
    · simp only [if_neg h]
      rw [← hmem i]
      simp [h]

theorem simulateWorkItem_deadListExact {g : GpuState} {cap : Nat} (dt : ℚ) (slot : Nat)
    (hg : g.DeadListExact cap) : (simulateWorkItem dt g slot).DeadListExact cap := by
  obtain ⟨hlen, hnd, hmem⟩ := hg
  unfold simulateWorkItem
  cases hs : g.pool[slot]? with
  | none => exact ⟨hlen, hnd, hmem⟩
  | some p =>
    have hlt : slot < g.pool.length := by
      by_contra hge
      rw [List.getElem?_eq_none (by omega)] at hs
      exact Option.noConfusion hs
    simp only
    by_cases hlive : 0 < p.life
    · have hgl : g.live slot := ⟨p, hs, hlive⟩
      have hnotfree : slot ∉ g.free := fun hin => ((hmem slot).1 hin).2 hgl
      rw [if_pos hlive]
      by_cases hdead : (p.advance dt).life ≤ 0
      · rw [if_pos hdead]
        refine ⟨by simpa using hlen, List.nodup_cons.2 ⟨hnotfree, hnd⟩, ?_⟩
        intro i
        have hl := live_iff_of_pool_set g
          { g with pool := g.pool.set slot (p.advance dt), free := slot :: g.free }
          slot (p.advance dt) rfl i
        simp only at hl ⊢
        rw [hl]
        by_cases h : i = slot
        · subst h
          simp only [if_true, List.mem_cons, true_or, true_iff]
          exact ⟨by omega, fun hc => absurd hc.2 (not_lt.mpr hdead)⟩
        · simp only [if_neg h, List.mem_cons, h, false_or]
          exact hmem i
      · rw [if_neg hdead]
        refine ⟨by simpa using hlen, hnd, ?_⟩
        intro i
        have hl := live_iff_of_pool_set g
          { g with pool := g.pool.set slot (p.advance dt), alive := g.alive ++ [slot] }
          slot (p.advance dt) rfl i
        simp only at hl ⊢
        rw [hl]
        by_cases h : i = slot
        · subst h
          simp only [if_true]
          constructor
          · intro hi; exact absurd hi hnotfree
          · rintro ⟨_, hn⟩; exact absurd ⟨hlt, not_le.mp hdead⟩ hn
        · simp only [if_neg h]
          exact hmem i
    · rw [if_neg hlive]
      exact ⟨hlen, hnd, hmem⟩

theorem foldl_emitWorkItem_deadListExact {cap : Nat} (batch : List Particle) :
    ∀ g : GpuState, g.DeadListExact cap → (∀ p ∈ batch, 0 < p.life) →
      (batch.foldl emitWorkItem g).DeadListExact cap := by
  induction batch with
  | nil => intro g hg _; exact hg
  | cons p ps ih =>
    intro g hg hpos
    exact ih _ (emitWorkItem_deadListExact hg (hpos p (List.mem_cons_self _ _)))
      (fun q hq => hpos q (List.mem_cons_of_mem _ hq))

theorem emitKernel_deadListExact {g : GpuState} {cap : Nat} (batch : List Particle)
    (numEmit threads : Nat) (hg : g.DeadListExact cap) (hpos : ∀ p ∈ batch, 0 < p.life) :
    (emitKernel g batch numEmit threads).DeadListExact cap :=
  foldl_emitWorkItem_deadListExact _ g hg (fun p hp => hpos p (List.mem_of_mem_take hp))

theorem foldl_simulateWorkItem_deadListExact {cap : Nat} (dt : ℚ) (slots : List Nat) :
    ∀ g : GpuState, g.DeadListExact cap →
      (slots.foldl (simulateWorkItem dt) g).DeadListExact cap := by
  induction slots with
  | nil => intro g hg; exact hg
  | cons i is ih => intro g hg; exact ih _ (simulateWorkItem_deadListExact dt i hg)

theorem simulateKernel_deadListExact {g : GpuState} {cap : Nat} (dt : ℚ)
    (threads maxParticles : Nat) (hg : g.DeadListExact cap) :
    (simulateKernel dt threads maxParticles g).DeadListExact cap :=
  foldl_simulateWorkItem_deadListExact dt _ _ hg

theorem deadListExact_counts {g : GpuState} {cap : Nat} (hg : g.DeadListExact cap) :
    g.free.length + g.liveCount cap = cap := by
  obtain ⟨_, hnd, hmem⟩ := hg
  have hperm : g.free.Perm ((List.range cap).filter fun i => !decide (g.live i)) := by
    apply (List.perm_ext_iff_of_nodup hnd ((List.nodup_range cap).filter _)).2
    intro i
    simp [hmem i]
  have hlen := hperm.length_eq
  have hsplit := List.length_eq_length_filter_add (l := List.range cap)
    (fun i => decide (g.live i))
  simp only [List.length_range] at hsplit
  unfold GpuState.liveCount
  omega

theorem Engine.create_deadListExact (maxParticles maxEmitPerFrame : Nat) (sorted : Bool)
    (simThreads : Nat × Nat × Nat) (emitter : EmitterData) (timer : ℚ) :
    (Engine.create maxParticles maxEmitPerFrame sorted simThreads emitter timer).gpu.DeadListExact
      (computeMaxParticles sorted maxParticles) := by
  have hfree : (Engine.create maxParticles maxEmitPerFrame sorted simThreads emitter
      timer).gpu.free = (List.range (computeMaxParticles sorted maxParticles)).reverse := by
    show ((generateIndices (computeMaxParticles sorted maxParticles) 0).take
      (computeMaxParticles sorted maxParticles)).reverse = _
    rw [generateIndices_eq, ← List.range_eq_range', List.take_of_length_le (by simp)]
  have hpool : (Engine.create maxParticles maxEmitPerFrame sorted simThreads emitter
      timer).gpu.pool = List.replicate (computeMaxParticles sorted maxParticles) deadParticle :=
    rfl
  refine ⟨by rw [hpool, List.length_replicate], ?_, ?_⟩
  · rw [hfree]; exact List.nodup_reverse.2 (List.nodup_range _)
  · intro i
    rw [hfree, List.mem_reverse, List.mem_range]
    constructor
    · intro hi
      refine ⟨hi, ?_⟩
      rintro ⟨p, hp, hl⟩
      rw [hpool] at hp
      have hp2 : p = deadParticle := (List.mem_replicate.1 (List.getElem?_mem hp)).2
      rw [hp2] at hl
      exact lt_irrefl _ hl
    · exact fun h => h.1

theorem emitWorkItem_alive (g : GpuState) (p : Particle) :
    (emitWorkItem g p).alive = g.alive := by
  unfold emitWorkItem
  cases g.free <;> rfl

theorem emitWorkItem_live {g : GpuState} {cap : Nat} {p : Particle}
    (hg : g.DeadListExact cap) (hp : 0 < p.life) (i : Nat) (hi : g.live i) :
    (emitWorkItem g p).live i := by
  obtain ⟨hlen, _, hmem⟩ := hg
  unfold emitWorkItem
  cases hf : g.free with
  | nil => exact hi
  | cons slot rest =>
    have hslot := (hmem slot).1 (by rw [hf]; exact List.mem_cons_self _ _)
    have hl := live_iff_of_pool_set g
      { g with free := rest, pool := g.pool.set slot p } slot p rfl i
    simp only at hl ⊢
    rw [hl]
    by_cases h : i = slot
    · rw [if_pos h]; exact ⟨by omega, hp⟩
    · rw [if_neg h]; exact hi

theorem emitWorkItem_closedPool {g : GpuState} {cap : Nat} {p : Particle}
    (hg : g.ClosedPool cap) (hp : 0 < p.life) : (emitWorkItem g p).ClosedPool cap := by
  obtain ⟨hd, hnd, hal⟩ := hg
  refine ⟨emitWorkItem_deadListExact hd hp, ?_, ?_⟩
  · rw [emitWorkItem_alive]; exact hnd
  · intro i hi
    rw [emitWorkItem_alive] at hi
    exact emitWorkItem_live hd hp i (hal i hi)

theorem foldl_emitWorkItem_closedPool {cap : Nat} (batch : List Particle) :
    ∀ g : GpuState, g.ClosedPool cap → (∀ p ∈ batch, 0 < p.life) →
      (batch.foldl emitWorkItem g).ClosedPool cap := by
  induction batch with
  | nil => intro g hg _; exact hg
  | cons p ps ih =>
    intro g hg hpos
    exact ih _ (emitWorkItem_closedPool hg (hpos p (List.mem_cons_self _ _)))
      (fun q hq => hpos q (List.mem_cons_of_mem _ hq))

theorem emitKernel_closedPool {g : GpuState} {cap : Nat} (batch : List Particle)
    (numEmit threads : Nat) (hg : g.ClosedPool cap) (hpos : ∀ p ∈ batch, 0 < p.life) :
    (emitKernel g batch numEmit threads).ClosedPool cap :=
  foldl_emitWorkItem_closedPool _ g hg (fun p hp => hpos p (List.mem_of_mem_take hp))

theorem simulateWorkItem_simulatedUpTo {g : GpuState} {cap : Nat} {done : List Nat}
    (dt : ℚ) (slot : Nat) (hg : g.SimulatedUpTo cap done) (hslot : slot ∉ done) :
    (simulateWorkItem dt g slot).SimulatedUpTo cap (slot :: done) := by
  obtain ⟨hd, hnd, hal, hcov⟩ := hg
  have hd1 := simulateWorkItem_deadListExact dt slot hd
  obtain ⟨hlen, _, hmem⟩ := hd
  refine ⟨hd1, ?_⟩
  unfold simulateWorkItem
  cases hs : g.pool[slot]? with
  | none =>
    have hge : ¬ slot < cap := by
      intro hlt
      rw [← hlen] at hlt
      rw [List.getElem?_eq_getElem hlt] at hs
      exact Option.noConfusion hs
    refine ⟨hnd, fun i hi => ⟨(hal i hi).1, List.mem_cons_of_mem _ (hal i hi).2⟩, ?_⟩
    intro i hi hlt
    rcases List.mem_cons.1 hi with h | h
    · subst h; exact absurd hlt hge
    · exact hcov i h hlt
  | some p =>
    have hlt : slot < g.pool.length := by
      by_contra hge
      rw [List.getElem?_eq_none (by omega)] at hs
      exact Option.noConfusion hs
    have hnotalive : slot ∉ g.alive := fun hin => hslot (hal slot hin).2
    simp only
    by_cases hlive : 0 < p.life
    · rw [if_pos hlive]
      by_cases hdead : (p.advance dt).life ≤ 0
      · rw [if_pos hdead]
        refine ⟨hnd, ?_, ?_⟩
        · intro i hi
          have hne : i ≠ slot := fun e => hnotalive (e ▸ hi)
          have hl := live_iff_of_pool_set g
            { g with pool := g.pool.set slot (p.advance dt), free := slot :: g.free }
            slot (p.advance dt) rfl i
          simp only at hl ⊢
          rw [hl, if_neg hne]
          exact ⟨(hal i hi).1, List.mem_cons_of_mem _ (hal i hi).2⟩
        · intro i hi hic
          rcases List.mem_cons.1 hi with h | h
          · subst h; exact Or.inl (List.mem_cons_self _ _)
          · rcases hcov i h hic with h1 | h1
            · exact Or.inl (List.mem_cons_of_mem _ h1)
            · exact Or.inr h1
      · rw [if_neg hdead]
        refine ⟨?_, ?_, ?_⟩
        · exact List.nodup_append.2 ⟨hnd, List.nodup_singleton _, by
            intro a ha hb
            rw [List.mem_singleton] at hb
            subst hb
            exact hnotalive ha⟩
        · intro i hi
          have hl := live_iff_of_pool_set g
            { g with pool := g.pool.set slot (p.advance dt), alive := g.alive ++ [slot] }
            slot (p.advance dt) rfl i
          simp only at hl hi ⊢
          rw [hl]
          rcases List.mem_append.1 hi with h | h
          · have hne : i ≠ slot := fun e => hnotalive (e ▸ h)
            rw [if_neg hne]
            exact ⟨(hal i h).1, List.mem_cons_of_mem _ (hal i h).2⟩
          · rw [List.mem_singleton] at h
            subst h
            rw [if_pos rfl]
            exact ⟨⟨hlt, not_le.mp hdead⟩, List.mem_cons_self _ _⟩
        · intro i hi hic
          simp only
          rcases List.mem_cons.1 hi with h | h
          · subst h; exact Or.inr (List.mem_append.2 (Or.inr (List.mem_singleton.2 rfl)))
          · rcases hcov i h hic with h1 | h1
            · exact Or.inl h1
            · exact Or.inr (List.mem_append.2 (Or.inl h1))
    · rw [if_neg hlive]
      refine ⟨hnd, fun i hi => ⟨(hal i hi).1, List.mem_cons_of_mem _ (hal i hi).2⟩, ?_⟩
      intro i hi hic
      rcases List.mem_cons.1 hi with h | h
      · subst h
        refine Or.inl ((hmem i).2 ⟨hic, ?_⟩)
        rintro ⟨q, hq, hql⟩
        rw [hs] at hq
        exact hlive (Option.some.inj hq ▸ hql)
      · exact hcov i h hic

theorem foldl_simulateWorkItem_simulatedUpTo {cap : Nat} (dt : ℚ) (slots : List Nat) :
    ∀ (g : GpuState) (done : List Nat), g.SimulatedUpTo cap done → slots.Nodup →
      (∀ i, i ∈ slots → i ∉ done) →
      (slots.foldl (simulateWorkItem dt) g).SimulatedUpTo cap (slots.reverse ++ done) := by
  induction slots with
  | nil => intro g done hg _ _; simpa using hg
  | cons j rest ih =>
    intro g done hg hnd hdis
    have hnd2 := List.nodup_cons.1 hnd
    have hstep := simulateWorkItem_simulatedUpTo dt j hg (hdis j (List.mem_cons_self _ _))
    have hrec := ih _ (j :: done) hstep hnd2.2 (by
      intro i hi hmem
      rcases List.mem_cons.1 hmem with h | h
      · subst h; exact hnd2.1 hi
      · exact hdis i (List.mem_cons_of_mem _ hi) h)
    simpa [List.reverse_cons, List.append_assoc] using hrec

theorem simulateKernel_simulatedUpTo {g : GpuState} {cap : Nat} (dt : ℚ)
    (threads maxParticles : Nat) (hg : g.DeadListExact cap) :
    (simulateKernel dt threads maxParticles g).SimulatedUpTo cap
      ((List.range (min threads maxParticles)).reverse ++ []) := by
  unfold simulateKernel
  refine foldl_simulateWorkItem_simulatedUpTo dt _ _ [] ?_ (List.nodup_range _) ?_
  · exact ⟨hg, List.nodup_nil, fun i hi => absurd hi (List.not_mem_nil i),
      fun i hi => absurd hi (List.not_mem_nil i)⟩
  · intro i _ hi; exact absurd hi (List.not_mem_nil i)

theorem simulateKernel_closedPool {g : GpuState} {cap : Nat} (dt : ℚ)
    (threads maxParticles : Nat) (hg : g.DeadListExact cap) :
    (simulateKernel dt threads maxParticles g).ClosedPool cap := by
  obtain ⟨hd, hnd, hal, _⟩ := simulateKernel_simulatedUpTo dt threads maxParticles hg
  exact ⟨hd, hnd, fun i hi => (hal i hi).1⟩

theorem simulateKernel_covers {g : GpuState} {cap : Nat} (dt : ℚ) (threads : Nat)
    (hg : g.DeadListExact cap) (hcov : cap ≤ threads) (i : Nat) (hi : i < cap) :
    i ∈ (simulateKernel dt threads cap g).free ∨ i ∈ (simulateKernel dt threads cap g).alive := by
  obtain ⟨_, _, _, hdone⟩ := simulateKernel_simulatedUpTo dt threads cap hg
  refine hdone i ?_ hi
  rw [List.append_nil, List.mem_reverse, List.mem_range, Nat.min_eq_right hcov]
  exact hi

theorem runCommand_closedPool {g : GpuState} {cap : Nat} (emitThreads : Nat)
    (h : ParticleSystem) (c : Command) (hg : g.ClosedPool cap)
    (hpos : ∀ p ∈ h.emitList, 0 < p.life) :
    (runCommand emitThreads h g c).ClosedPool cap := by
  cases c with
  | drawIndirect => exact hg
  | dispatch pass gx gy gz =>
    cases pass with
    | emit =>
      unfold runCommand
      cases h.emitCB with
      | none => exact hg
      | some cb => exact emitKernel_closedPool _ _ _ hg hpos
    | simulate =>
      unfold runCommand
      cases h.simulateCB with
      | none => exact hg
      | some cb => exact simulateKernel_closedPool _ _ _ hg.1
    | sort => exact hg

theorem foldl_runCommand_closedPool {cap : Nat} (emitThreads : Nat) (h : ParticleSystem)
    (hpos : ∀ p ∈ h.emitList, 0 < p.life) (cs : List Command) :
    ∀ g : GpuState, g.ClosedPool cap →
      (cs.foldl (runCommand emitThreads h) g).ClosedPool cap := by
  induction cs with
  | nil => intro g hg; exact hg
  | cons c cs ih => intro g hg; exact ih _ (runCommand_closedPool emitThreads h c hg hpos)

theorem closedPool_counts {g : GpuState} {cap : Nat} (hg : g.ClosedPool cap) :
    g.free.length + g.alive.length + g.midCount cap = cap := by
  obtain ⟨hd, hnd, hal⟩ := hg
  have hfree := deadListExact_counts hd
  have hlt : ∀ i, g.live i → i < cap := by
    rintro i ⟨p, hp, _⟩
    rw [← hd.1]
    by_contra hge
    rw [List.getElem?_eq_none (by omega)] at hp
    exact Option.noConfusion hp
  have hperm : g.alive.Perm (((List.range cap).filter fun i => decide (g.live i)).filter
      fun i => decide (i ∈ g.alive)) := by
    apply (List.perm_ext_iff_of_nodup hnd (((List.nodup_range cap).filter _).filter _)).2
    intro i
    simp only [List.mem_filter, List.mem_range, decide_eq_true_eq]
    exact ⟨fun hi => ⟨⟨hlt i (hal i hi), hal i hi⟩, hi⟩, fun hi => hi.2⟩
  have hmid : ((List.range cap).filter fun i => decide (g.midTransition i)) =
      ((List.range cap).filter fun i => decide (g.live i)).filter
        fun i => !decide (i ∈ g.alive) := by
    rw [List.filter_filter]
    apply List.filter_congr
    intro i _
    simp [GpuState.midTransition, and_comm]
  have hsplit : ((List.range cap).filter fun i => decide (g.live i)).length =
      (((List.range cap).filter fun i => decide (g.live i)).filter
        fun i => decide (i ∈ g.alive)).length +
      (((List.range cap).filter fun i => decide (g.live i)).filter
        fun i => !decide (i ∈ g.alive)).length :=
    List.length_eq_length_filter_add _
  have hlen := hperm.length_eq
  unfold GpuState.midCount
  unfold GpuState.liveCount at hfree
  rw [hmid]
  omega

theorem Engine.create_closedPool (maxParticles maxEmitPerFrame : Nat) (sorted : Bool)
    (simThreads : Nat × Nat × Nat) (emitter : EmitterData) (timer : ℚ) :
    (Engine.create maxParticles maxEmitPerFrame sorted simThreads emitter timer).gpu.ClosedPool
      (computeMaxParticles sorted maxParticles) :=
  ⟨Engine.create_deadListExact maxParticles maxEmitPerFrame sorted simThreads emitter timer,
    List.nodup_nil, fun i hi => absurd hi (List.not_mem_nil i)⟩

theorem emittedParticles_life_pos {e : EmitterData} {num : Nat} {draws : Nat → ParticleDraw}
    (hd : ∀ i, i < num → 0 < (sampleParticle e (draws i)).life) :
    ∀ p ∈ emittedParticles e num draws, 0 < p.life := by
  intro p hp
  simp only [emittedParticles, List.mem_map, List.mem_range] at hp
  obtain ⟨i, hi, rfl⟩ := hp
  exact hd i hi

theorem update_host_facts (emitThreads : Nat) (ps : ParticleSystem) (dt : ℚ)
    (view : List ℚ) (r : Int) (draws : Nat → ParticleDraw) :
    (ps.update emitThreads dt view r draws).mMaxParticles = ps.mMaxParticles ∧
    (ps.update emitThreads dt view r draws).mSimulateThreads = ps.mSimulateThreads ∧
    (ps.update emitThreads dt view r draws).emitList =
      (if ps.mEmitter.emitFrequency ≤ ps.mEmitTimer + dt then
        emittedParticles ps.mEmitter (emitRequest ps.mEmitter r).toNat draws
       else ps.emitList) ∧
    (ps.update emitThreads dt view r draws).simulateCB =
      some { view := if ps.mShouldSort then some view else none, dt := dt,
             maxParticles := ps.mMaxParticles } ∧
    (ps.update emitThreads dt view r draws).commands =
      ps.commands ++
        ((if ps.mEmitter.emitFrequency ≤ ps.mEmitTimer + dt then
          [Command.dispatch Pass.emit 1
            (div_round_up (emitRequest ps.mEmitter r).toNat emitThreads) 1]
         else []) ++
        [Command.dispatch Pass.simulate
          (simulateGroups ps.mMaxParticles ps.mSimulateThreads) 1 1]) ∧
    (ps.update emitThreads dt view r draws).mEmitter = ps.mEmitter ∧
    (ps.update emitThreads dt view r draws).mMaxEmitPerFrame = ps.mMaxEmitPerFrame := by
  simp only [ParticleSystem.update, ParticleSystem.emit, timerStep]
  by_cases hf : ps.mEmitter.emitFrequency ≤ ps.mEmitTimer + dt <;>
    cases hs : ps.mShouldSort <;> simp [hf, hs]

theorem update_emitList_pos (emitThreads : Nat) (ps : ParticleSystem) (dt : ℚ)
    (view : List ℚ) (r : Int) (draws : Nat → ParticleDraw)
    (hb : ∀ p ∈ ps.emitList, 0 < p.life)
    (hlim : ps.mEmitter.emitFrequency ≤ ps.mEmitTimer + dt →
      ps.EmitsWithinLimits (emitRequest ps.mEmitter r).toNat draws) :
    ∀ p ∈ (ps.update emitThreads dt view r draws).emitList, 0 < p.life := by
  rw [(update_host_facts emitThreads ps dt view r draws).2.2.1]
  by_cases hf : ps.mEmitter.emitFrequency ≤ ps.mEmitTimer + dt
  · rw [if_pos hf]
    exact emittedParticles_life_pos (hlim hf).2
  · rw [if_neg hf]
    exact hb

theorem Engine.submit_stable {emitThreads : Nat} {s0 s : Engine} {h : ParticleSystem}
    (hs : Engine.Stable s0 s) (hc : h.mMaxParticles = s.host.mMaxParticles)
    (ht : h.mSimulateThreads = s.host.mSimulateThreads)
    (hb : ∀ p ∈ h.emitList, 0 < p.life) :
    Engine.Stable s0 (s.submit emitThreads h) :=
  { capacity := hc.trans hs.capacity
    threads := ht.trans hs.threads
    batch := hb
    pool := foldl_runCommand_closedPool emitThreads h hb _ _ hs.pool }

theorem Engine.reachable_stable {emitThreads : Nat} {s0 s : Engine}
    (h0 : Engine.Stable s0 s0) (hr : Engine.Reachable emitThreads s0 s) :
    Engine.Stable s0 s := by
  induction hr with
  | init => exact h0
  | emit s num draws _ hlim ih =>
    exact Engine.submit_stable ih rfl rfl (emittedParticles_life_pos hlim.2)
  | update s dt view r draws _ hlim ih =>
    obtain ⟨h1, h2, _⟩ := update_host_facts emitThreads s.host dt view r draws
    exact Engine.submit_stable ih h1 h2
      (update_emitList_pos emitThreads s.host dt view r draws ih.batch hlim)
  | render s view proj _ ih =>
    refine Engine.submit_stable ih ?_ ?_ ?_
    · simp only [ParticleSystem.render]; split <;> rfl
    · simp only [ParticleSystem.render]; split <;> rfl
    · simp only [ParticleSystem.render]; split <;> exact ih.batch

theorem Engine.update_gpu (emitThreads : Nat) (s : Engine) (dt : ℚ) (view : List ℚ)
    (r : Int) (draws : Nat → ParticleDraw) (cap : Nat) (hg : s.gpu.ClosedPool cap)
    (hb : ∀ p ∈ s.host.emitList, 0 < p.life)
    (hlim : s.host.mEmitter.emitFrequency ≤ s.host.mEmitTimer + dt →
      s.host.EmitsWithinLimits (emitRequest s.host.mEmitter r).toNat draws) :
    ∃ g1 : GpuState, g1.ClosedPool cap ∧
      (s.update emitThreads dt view r draws).gpu =
        simulateKernel dt
          (simulateGroups s.host.mMaxParticles s.host.mSimulateThreads *
            s.host.mSimulateThreads)
          s.host.mMaxParticles g1 := by
  obtain ⟨_, h2, _, h4, h5, _⟩ := update_host_facts emitThreads s.host dt view r draws
  have hpos := update_emitList_pos emitThreads s.host dt view r draws hb hlim
  refine ⟨(if s.host.mEmitter.emitFrequency ≤ s.host.mEmitTimer + dt then
      [Command.dispatch Pass.emit 1
        (div_round_up (emitRequest s.host.mEmitter r).toNat emitThreads) 1]
      else []).foldl (runCommand emitThreads (s.host.update emitThreads dt view r draws))
        s.gpu, foldl_runCommand_closedPool emitThreads _ hpos _ _ hg, ?_⟩
  show List.foldl _ _ _ = _
  rw [h5, List.drop_left, List.foldl_append]
  simp only [List.foldl_cons, List.foldl_nil, runCommand, h4, h2]

/-- C3 (as amended): in every state reachable from construction by calls of
`emit`, `update` and `render` whose emissions fit the staging buffer and hand
out positive lifetimes, the dead-list count lies in `[0, capacity]`, neither
the dead list nor the alive list holds a slot twice, both hold only slots
below the capacity, and every slot below the capacity is in exactly one of
three sets: the dead list, the alive list, or mid-transition (live, not yet
on the alive list); dead count + alive count + mid-transition count is the
capacity.  Right after an `update` whose simulate dispatch covers the pool
(`capacity ≤ groups * threads`) no slot is mid-transition: every slot is on
the dead list or on the alive list, never both, never neither, and
dead count + alive count is the capacity. -/
theorem closedPool_invariant (emitThreads maxParticles maxEmitPerFrame : Nat) (sorted : Bool)
    (simThreads : Nat × Nat × Nat) (emitter : EmitterData) (timer : ℚ) (s : Engine)
    (hr : Engine.Reachable emitThreads
      (Engine.create maxParticles maxEmitPerFrame sorted simThreads emitter timer) s) :
    s.host.mMaxParticles = computeMaxParticles sorted maxParticles ∧
    s.gpu.free.length ≤ s.host.mMaxParticles ∧
    s.gpu.free.Nodup ∧ s.gpu.alive.Nodup ∧
    (∀ i, i ∈ s.gpu.free ∨ i ∈ s.gpu.alive → i < s.host.mMaxParticles) ∧
    (∀ i, i < s.host.mMaxParticles →
      (i ∈ s.gpu.free ∧ i ∉ s.gpu.alive ∧ ¬ s.gpu.midTransition i) ∨
      (i ∉ s.gpu.free ∧ i ∈ s.gpu.alive ∧ ¬ s.gpu.midTransition i) ∨
      (i ∉ s.gpu.free ∧ i ∉ s.gpu.alive ∧ s.gpu.midTransition i)) ∧
    s.gpu.free.length + s.gpu.alive.length + s.gpu.midCount s.host.mMaxParticles =
      s.host.mMaxParticles ∧
    (∀ (dt : ℚ) (view : List ℚ) (r : Int) (draws : Nat → ParticleDraw),
      s.host.mMaxParticles ≤
        simulateGroups s.host.mMaxParticles s.host.mSimulateThreads *
          s.host.mSimulateThreads →
      (s.host.mEmitter.emitFrequency ≤ s.host.mEmitTimer + dt →
        s.host.EmitsWithinLimits (emitRequest s.host.mEmitter r).toNat draws) →
      (∀ i, i < s.host.mMaxParticles →
        (i ∈ (s.update emitThreads dt view r draws).gpu.free ∧
          i ∉ (s.update emitThreads dt view r draws).gpu.alive) ∨
        (i ∉ (s.update emitThreads dt view r draws).gpu.free ∧
          i ∈ (s.update emitThreads dt view r draws).gpu.alive)) ∧
      (s.update emitThreads dt view r draws).gpu.free.length +
        (s.update emitThreads dt view r draws).gpu.alive.length = s.host.mMaxParticles) := by
  have h0 : Engine.Stable
      (Engine.create maxParticles maxEmitPerFrame sorted simThreads emitter timer)
      (Engine.create maxParticles maxEmitPerFrame sorted simThreads emitter timer) :=
    { capacity := rfl
      threads := rfl
      batch := fun p hp => absurd hp (List.not_mem_nil p)
      pool := Engine.create_closedPool maxParticles maxEmitPerFrame sorted simThreads
        emitter timer }
  have key : ∀ t : Engine, Engine.Stable
      (Engine.create maxParticles maxEmitPerFrame sorted simThreads emitter timer) t →
      t.gpu.ClosedPool t.host.mMaxParticles := by
    intro t ht
    have hc : t.host.mMaxParticles = computeMaxParticles sorted maxParticles := ht.capacity
    rw [hc]; exact ht.pool
  have hst := Engine.reachable_stable h0 hr
  have hcap : s.host.mMaxParticles = computeMaxParticles sorted maxParticles := hst.capacity
  have hpool := key s hst
  have hcount := closedPool_counts hpool
  obtain ⟨⟨hlen, hnd, hmem⟩, hand, hal⟩ := hpool
  have hlt : ∀ i, s.gpu.live i → i < s.host.mMaxParticles := by
    rintro i ⟨p, hp, _⟩
    rw [← hlen]
    by_contra hge
    rw [List.getElem?_eq_none (by omega)] at hp
    exact Option.noConfusion hp
  refine ⟨hcap, by omega, hnd, hand, ?_, ?_, hcount, ?_⟩
  · rintro i (hi | hi)
    · exact ((hmem i).1 hi).1
    · exact hlt i (hal i hi)
  · intro i hi
    by_cases hf : i ∈ s.gpu.free
    · have hnl := ((hmem i).1 hf).2
      exact Or.inl ⟨hf, fun ha => hnl (hal i ha), fun hm => hnl hm.1⟩
    · have hl : s.gpu.live i := by
        by_contra hnl
        exact hf ((hmem i).2 ⟨hi, hnl⟩)
      by_cases ha : i ∈ s.gpu.alive
      · exact Or.inr (Or.inl ⟨hf, ha, fun hm => hm.2 ha⟩)
      · exact Or.inr (Or.inr ⟨hf, ha, hl, ha⟩)
  · intro dt view r draws hcov hlim
    have hst1 : Engine.Stable
        (Engine.create maxParticles maxEmitPerFrame sorted simThreads emitter timer)
        (s.update emitThreads dt view r draws) :=
      Engine.reachable_stable h0 (Engine.Reachable.update s dt view r draws hr hlim)
    have hc1 : (s.update emitThreads dt view r draws).host.mMaxParticles =
        s.host.mMaxParticles := hst1.capacity.trans hst.capacity.symm
    have hpool1 := key _ hst1
    rw [hc1] at hpool1
    have hcount1 := closedPool_counts hpool1
    obtain ⟨g1, hg1, hgpu⟩ := Engine.update_gpu emitThreads s dt view r draws
      s.host.mMaxParticles ⟨⟨hlen, hnd, hmem⟩, hand, hal⟩ hst.batch hlim
    have hcover : ∀ i, i < s.host.mMaxParticles →
        i ∈ (s.update emitThreads dt view r draws).gpu.free ∨
          i ∈ (s.update emitThreads dt view r draws).gpu.alive := by
      intro i hi
      rw [hgpu]
      exact simulateKernel_covers dt _ hg1.1 hcov i hi
    obtain ⟨⟨_, _, hmem1⟩, _, hal1⟩ := hpool1
    have hmid : (s.update emitThreads dt view r draws).gpu.midCount s.host.mMaxParticles = 0 := by
      unfold GpuState.midCount
      rw [List.length_eq_zero, List.filter_eq_nil_iff]
      intro i hi
      rw [List.mem_range] at hi
      simp only [decide_eq_true_eq]
      rintro ⟨hl, hna⟩
      rcases hcover i hi with h | h
      · exact ((hmem1 i).1 h).2 hl
      · exact hna h
    refine ⟨?_, by omega⟩
    intro i hi
    rcases hcover i hi with h | h
    · exact Or.inl ⟨h, fun ha => ((hmem1 i).1 h).2 (hal1 i ha)⟩
    · exact Or.inr ⟨fun hf => ((hmem1 i).1 hf).2 (hal1 i h), h⟩

theorem exampleFrame_host :
    exampleFrame.host.mMaxParticles = 4 ∧ exampleFrame.host.mSimulateThreads = 256 ∧
    exampleFrame.host.mEmitter = exampleEmitter ∧ exampleFrame.host.mMaxEmitPerFrame = 4 := by
  obtain ⟨h1, h2, _, _, _, h6, h7⟩ :=
    update_host_facts 64 exampleEngine.host (3 / 2) [] 0 (fun _ => zeroDraw)
  exact ⟨h1, h2, h6, h7⟩

theorem exampleEmitter_withinLimits (ps : ParticleSystem) (he : ps.mEmitter = exampleEmitter)
    (hm : ps.mMaxEmitPerFrame = 4) :
    ps.EmitsWithinLimits (emitRequest ps.mEmitter 0).toNat (fun _ => zeroDraw) := by
  rw [ParticleSystem.EmitsWithinLimits, he, hm]
  refine ⟨by decide, fun i _ => ?_⟩
  norm_num [sampleParticle, exampleEmitter, zeroDraw]

theorem exampleFrame_reachable : Engine.Reachable 64 exampleEngine exampleFrame :=
  Engine.Reachable.update _ (3 / 2) [] 0 (fun _ => zeroDraw) Engine.Reachable.init
    (fun _ => exampleEmitter_withinLimits _ rfl rfl)

/-- C3, witness: the example engine after one `update(3/2)`, which emits two
particles of lifetime 3, and a further `update(1)` from there. -/
theorem closedPool_invariant_witness :
    exampleFrame.host.mMaxParticles = computeMaxParticles false 4 ∧
    exampleFrame.gpu.free.length ≤ exampleFrame.host.mMaxParticles ∧
    exampleFrame.gpu.free.Nodup ∧ exampleFrame.gpu.alive.Nodup ∧
    (∀ i, i ∈ exampleFrame.gpu.free ∨ i ∈ exampleFrame.gpu.alive →
      i < exampleFrame.host.mMaxParticles) ∧
    (∀ i, i < exampleFrame.host.mMaxParticles →
      (i ∈ exampleFrame.gpu.free ∧ i ∉ exampleFrame.gpu.alive ∧
        ¬ exampleFrame.gpu.midTransition i) ∨
      (i ∉ exampleFrame.gpu.free ∧ i ∈ exampleFrame.gpu.alive ∧
        ¬ exampleFrame.gpu.midTransition i) ∨
      (i ∉ exampleFrame.gpu.free ∧ i ∉ exampleFrame.gpu.alive ∧
        exampleFrame.gpu.midTransition i)) ∧
    exampleFrame.gpu.free.length + exampleFrame.gpu.alive.length +
        exampleFrame.gpu.midCount exampleFrame.host.mMaxParticles =
      exampleFrame.host.mMaxParticles ∧
    (∀ i, i < exampleFrame.host.mMaxParticles →
      (i ∈ (exampleFrame.update 64 1 [] 0 fun _ => zeroDraw).gpu.free ∧
        i ∉ (exampleFrame.update 64 1 [] 0 fun _ => zeroDraw).gpu.alive) ∨
      (i ∉ (exampleFrame.update 64 1 [] 0 fun _ => zeroDraw).gpu.free ∧
        i ∈ (exampleFrame.update 64 1 [] 0 fun _ => zeroDraw).gpu.alive)) ∧
    (exampleFrame.update 64 1 [] 0 fun _ => zeroDraw).gpu.free.length +
        (exampleFrame.update 64 1 [] 0 fun _ => zeroDraw).gpu.alive.length =
      exampleFrame.host.mMaxParticles :=
  have h := closedPool_invariant 64 4 4 false (256, 1, 1) exampleEmitter 0 exampleFrame
    exampleFrame_reachable
  ⟨h.1, h.2.1, h.2.2.1, h.2.2.2.1, h.2.2.2.2.1, h.2.2.2.2.2.1, h.2.2.2.2.2.2.1,
    h.2.2.2.2.2.2.2 1 [] 0 (fun _ => zeroDraw)
      (by rw [exampleFrame_host.1, exampleFrame_host.2.1]; decide)
      (fun _ => exampleEmitter_withinLimits _ exampleFrame_host.2.2.1 exampleFrame_host.2.2.2)⟩

theorem toNat_two : Int.toNat 2 = 2 := rfl

theorem zeroLife_gpu :
    (zeroLifeEngine.update 64 1 [] 0 fun _ => zeroDraw).gpu.free = [1, 0] ∧
    (zeroLifeEngine.update 64 1 [] 0 fun _ => zeroDraw).gpu.alive = [] ∧
    ¬ (zeroLifeEngine.update 64 1 [] 0 fun _ => zeroDraw).gpu.live 3 := by
  refine ⟨?_, ?_, ?_⟩ <;>
  simp [GpuState.live, zeroLifeEngine, Engine.update, Engine.submit, Engine.create,
      ParticleSystem.update, ParticleSystem.emit, ParticleSystem.create, timerStep,
      exampleEmitter, computeMaxParticles, generateIndices, emitRequest, wrapInt32,
      div_round_up, simulateGroups, runCommand, emitKernel, emitWorkItem, simulateKernel,
      simulateWorkItem, emittedParticles, sampleParticle, zeroDraw, deadParticle,
      List.range, List.range.loop, toNat_two, vec3.add, List.replicate]

/-- C3, counterexample: an engine of four slots whose emitter has duration 0.
One `update(1)` emits two particles (the batch fits the staging buffer of four
and the simulate dispatch of 256 threads covers the pool); they get lifetime 0
in slots 3 and 2, the simulate pass skips them, and afterwards slot 3 is
neither on the dead list nor on the alive list nor live: only two of the four
slots are accounted for. -/
theorem zeroLife_leaks :
    zeroLifeEngine.host.mMaxParticles = 4 ∧
    ValidCountDraw zeroLifeEngine.host.mEmitter 0 ∧
    ValidParticleDraw zeroLifeEngine.host.mEmitter zeroDraw ∧
    (emitRequest zeroLifeEngine.host.mEmitter 0).toNat ≤ zeroLifeEngine.host.mMaxEmitPerFrame ∧
    zeroLifeEngine.host.mMaxParticles ≤
      simulateGroups zeroLifeEngine.host.mMaxParticles zeroLifeEngine.host.mSimulateThreads *
        zeroLifeEngine.host.mSimulateThreads ∧
    (zeroLifeEngine.update 64 1 [] 0 fun _ => zeroDraw).gpu.free = [1, 0] ∧
    (zeroLifeEngine.update 64 1 [] 0 fun _ => zeroDraw).gpu.alive = [] ∧
    ¬ (3 ∈ (zeroLifeEngine.update 64 1 [] 0 fun _ => zeroDraw).gpu.free ∨
        3 ∈ (zeroLifeEngine.update 64 1 [] 0 fun _ => zeroDraw).gpu.alive ∨
        (zeroLifeEngine.update 64 1 [] 0 fun _ => zeroDraw).gpu.live 3) ∧
    (zeroLifeEngine.update 64 1 [] 0 fun _ => zeroDraw).gpu.free.length +
        (zeroLifeEngine.update 64 1 [] 0 fun _ => zeroDraw).gpu.alive.length +
        (zeroLifeEngine.update 64 1 [] 0 fun _ => zeroDraw).gpu.midCount 4 = 2 := by
  obtain ⟨hfree, halive, hlive⟩ := zeroLife_gpu
  have hmid : (zeroLifeEngine.update 64 1 [] 0 fun _ => zeroDraw).gpu.midCount 4 = 0 := by
    unfold GpuState.midCount
    rw [List.length_eq_zero, List.filter_eq_nil_iff]
    intro i hi
    simp only [decide_eq_true_eq]
    rintro ⟨hl, -⟩
    revert hl
    rw [List.mem_range] at hi
    interval_cases i <;>
    simp [GpuState.live, zeroLifeEngine, Engine.update, Engine.submit, Engine.create,
      ParticleSystem.update, ParticleSystem.emit, ParticleSystem.create, timerStep,
      exampleEmitter, computeMaxParticles, generateIndices, emitRequest, wrapInt32,
      div_round_up, simulateGroups, runCommand, emitKernel, emitWorkItem, simulateKernel,
      simulateWorkItem, emittedParticles, sampleParticle, zeroDraw, deadParticle,
      List.range, List.range.loop, toNat_two, vec3.add, List.replicate]
  refine ⟨rfl, by decide, ?_, by decide, by decide, hfree, halive, ?_, ?_⟩
  · norm_num [ValidParticleDraw, vec3.withinOffset, zeroLifeEngine, Engine.create,
      ParticleSystem.create, exampleEmitter, zeroDraw]
  · rw [hfree, halive]
    rintro (h | h | h)
    · simp at h
    · simp at h
    · exact hlive h
  · rw [hfree, halive, hmid]
    rfl

/-- Why the coverage proviso is there: an engine of five slots whose simulate
program has two threads per group dispatches two groups, four threads.  After
one `update(3/2)`, which emits into slots 4 and 3, slot 4 has not been reached
by the simulate pass: it is live but neither on the dead list nor on the alive
list. -/
theorem uncovered_slot_stays_midTransition :
    ¬ (uncoveredEngine.host.mMaxParticles ≤
        simulateGroups uncoveredEngine.host.mMaxParticles
          uncoveredEngine.host.mSimulateThreads * uncoveredEngine.host.mSimulateThreads) ∧
    (uncoveredEngine.update 64 (3 / 2) [] 0 fun _ => zeroDraw).gpu.free = [2, 1, 0] ∧
    (uncoveredEngine.update 64 (3 / 2) [] 0 fun _ => zeroDraw).gpu.alive = [3] ∧
    (uncoveredEngine.update 64 (3 / 2) [] 0 fun _ => zeroDraw).gpu.midTransition 4 := by
  refine ⟨by decide, ?_, ?_, ?_⟩ <;>
  norm_num [GpuState.midTransition, GpuState.live, uncoveredEngine, Engine.update, Engine.submit,
      Engine.create, ParticleSystem.update, ParticleSystem.emit, ParticleSystem.create,
      timerStep, exampleEmitter, computeMaxParticles, generateIndices, emitRequest, wrapInt32,
      div_round_up, simulateGroups, runCommand, emitKernel, emitWorkItem, simulateKernel,
      simulateWorkItem, emittedParticles, sampleParticle, zeroDraw, deadParticle,
      Particle.advance, List.range, List.range.loop, toNat_two, vec3.add, List.replicate]

/-! ## The per-frame reset and the command sequence -/

theorem update_eq_beforeSimulate (emitThreads : Nat) (ps : ParticleSystem) (dt : ℚ)
    (view : List ℚ) (r : Int) (draws : Nat → ParticleDraw) :
    ps.update emitThreads dt view r draws =
      { ps.beforeSimulate emitThreads dt view r draws with
        commands := (ps.beforeSimulate emitThreads dt view r draws).commands ++
          [Command.dispatch Pass.simulate
            (simulateGroups ps.mMaxParticles ps.mSimulateThreads) 1 1] } := by
  simp only [ParticleSystem.update, ParticleSystem.beforeSimulate, ParticleSystem.emit]
  split <;> split <;> rfl

theorem beforeSimulate_fixed (emitThreads : Nat) (ps : ParticleSystem) (dt : ℚ)
    (view : List ℚ) (r : Int) (draws : Nat → ParticleDraw) :
    (ps.beforeSimulate emitThreads dt view r draws).mShouldSort = ps.mShouldSort ∧
    (ps.beforeSimulate emitThreads dt view r draws).mMaxParticles = ps.mMaxParticles ∧
    (ps.beforeSimulate emitThreads dt view r draws).mSortDataReset = ps.mSortDataReset ∧
    (ps.beforeSimulate emitThreads dt view r draws).mMaxEmitPerFrame = ps.mMaxEmitPerFrame := by
  simp only [ParticleSystem.beforeSimulate, ParticleSystem.emit]
  split <;> split <;> exact ⟨rfl, rfl, rfl, rfl⟩

theorem ParticleSystem.reachable_sameResources {emitThreads : Nat} {ps0 ps : ParticleSystem}
    (hr : ParticleSystem.Reachable emitThreads ps0 ps) :
    ParticleSystem.SameResources ps0 ps := by
  induction hr
  case init => exact ⟨rfl, rfl, rfl, rfl⟩
  case update ps dt view r draws _ ih =>
    obtain ⟨h1, h2, h3, h4⟩ := beforeSimulate_fixed emitThreads ps dt view r draws
    rw [update_eq_beforeSimulate]
    exact ⟨h1.trans ih.sort, h2.trans ih.capacity, h3.trans ih.reset, h4.trans ih.maxEmit⟩
  case render ps view proj _ ih =>
    have h : (ps.render view proj).mShouldSort = ps.mShouldSort ∧
        (ps.render view proj).mMaxParticles = ps.mMaxParticles ∧
        (ps.render view proj).mSortDataReset = ps.mSortDataReset ∧
        (ps.render view proj).mMaxEmitPerFrame = ps.mMaxEmitPerFrame := by
      simp only [ParticleSystem.render]
      split <;> exact ⟨rfl, rfl, rfl, rfl⟩
    exact ⟨h.1.trans ih.sort, h.2.1.trans ih.capacity, h.2.2.1.trans ih.reset,
      h.2.2.2.trans ih.maxEmit⟩
  all_goals
    rename_i ih
    exact ⟨ih.sort, ih.capacity, ih.reset, ih.maxEmit⟩

theorem initSortResources_getElem? (n i : Nat) (hi : i < n) :
    (initSortResources n)[i]? = some sortSentinel := by
  unfold initSortResources
  rw [List.getElem?_replicate_of_lt hi]
  rfl

/-- C11: in every state of a sorted engine reachable from construction the
reset buffer has exactly `capacity` entries, each the sentinel (index
`2^32 - 1`, depth `FLT_MAX`); and in the state in which `update` issues the
simulate dispatch every alive-list entry below `capacity` is the sentinel. -/
theorem update_writes_sentinels (emitThreads maxParticles maxEmitPerFrame : Nat)
    (simThreads : Nat × Nat × Nat) (emitter : EmitterData) (timer : ℚ) (ps : ParticleSystem)
    (hr : ParticleSystem.Reachable emitThreads
      (ParticleSystem.create maxParticles maxEmitPerFrame true simThreads emitter timer) ps)
    (dt : ℚ) (view : List ℚ) (r : Int) (draws : Nat → ParticleDraw) :
    ps.mSortDataReset.length = ps.mMaxParticles ∧
    (∀ d ∈ ps.mSortDataReset, d = sortSentinel) ∧
    sortSentinel.index = 2 ^ 32 - 1 ∧ sortSentinel.depth = floatMax ∧
    (∀ i, i < ps.mMaxParticles →
      (ps.beforeSimulate emitThreads dt view r draws).aliveList[i]? = some sortSentinel) ∧
    ps.update emitThreads dt view r draws =
      { ps.beforeSimulate emitThreads dt view r draws with
        commands := (ps.beforeSimulate emitThreads dt view r draws).commands ++
          [Command.dispatch Pass.simulate
            (simulateGroups ps.mMaxParticles ps.mSimulateThreads) 1 1] } := by
  have hs := ParticleSystem.reachable_sameResources hr
  have hsort : ps.mShouldSort = true := hs.sort
  have hreset : ps.mSortDataReset = initSortResources ps.mMaxParticles := by
    rw [hs.reset, hs.capacity]; rfl
  refine ⟨?_, ?_, rfl, rfl, ?_, update_eq_beforeSimulate emitThreads ps dt view r draws⟩
  · rw [hreset]; simp [initSortResources]
  · intro d hd
    rw [hreset] at hd
    have := (List.mem_replicate.1 hd).2
    rw [this]; rfl
  · intro i hi
    have hal : (ps.beforeSimulate emitThreads dt view r draws).aliveList[i]? =
        (initSortResources ps.mMaxParticles)[i]? := by
      simp only [ParticleSystem.beforeSimulate, ParticleSystem.emit]
      split <;> simp [hsort, hreset, initSortResources, List.getElem?_append, hi]
    rw [hal, initSortResources_getElem? _ _ hi]

/-- C11, witness: the sorted example engine after `setEmitData` and `render`. -/
theorem update_writes_sentinels_witness :
    ((sortedExamplePS.setEmitData 3 1 2).render [] []).mSortDataReset.length =
      ((sortedExamplePS.setEmitData 3 1 2).render [] []).mMaxParticles ∧
    (∀ d ∈ ((sortedExamplePS.setEmitData 3 1 2).render [] []).mSortDataReset,
      d = sortSentinel) ∧
    sortSentinel.index = 2 ^ 32 - 1 ∧ sortSentinel.depth = floatMax ∧
    (∀ i, i < ((sortedExamplePS.setEmitData 3 1 2).render [] []).mMaxParticles →
      (((sortedExamplePS.setEmitData 3 1 2).render [] []).beforeSimulate 64 (5 / 2) [] 1
        fun _ => zeroDraw).aliveList[i]? = some sortSentinel) ∧
    ((sortedExamplePS.setEmitData 3 1 2).render [] []).update 64 (5 / 2) [] 1
        (fun _ => zeroDraw) =
      { ((sortedExamplePS.setEmitData 3 1 2).render [] []).beforeSimulate 64 (5 / 2) [] 1
          (fun _ => zeroDraw) with
        commands := (((sortedExamplePS.setEmitData 3 1 2).render [] []).beforeSimulate 64
            (5 / 2) [] 1 fun _ => zeroDraw).commands ++
          [Command.dispatch Pass.simulate
            (simulateGroups ((sortedExamplePS.setEmitData 3 1 2).render [] []).mMaxParticles
              ((sortedExamplePS.setEmitData 3 1 2).render [] []).mSimulateThreads) 1 1] } :=
  update_writes_sentinels 64 8 8 (4, 1, 1) exampleEmitter 0 _
    (ParticleSystem.Reachable.render _ [] []
      (ParticleSystem.Reachable.setEmitData _ 3 1 2 ParticleSystem.Reachable.init))
    (5 / 2) [] 1 (fun _ => zeroDraw)

theorem sortedExample_capacity :
    sortedExamplePS.mMaxParticles = 8 ∧ sortedExamplePS.mSortDataReset.length = 8 := by
  decide

/-- C12: whatever the state, the mode and the timer, the alive-list counter
is 0 in the state in which `update` issues the simulate dispatch, and `update`
leaves the dead list, its counter and the indirect draw arguments as they
were. -/
theorem update_resets_aliveCounter (emitThreads : Nat) (ps : ParticleSystem) (dt : ℚ)
    (view : List ℚ) (r : Int) (draws : Nat → ParticleDraw) :
    (ps.beforeSimulate emitThreads dt view r draws).aliveListCounter = 0 ∧
    ps.update emitThreads dt view r draws =
      { ps.beforeSimulate emitThreads dt view r draws with
        commands := (ps.beforeSimulate emitThreads dt view r draws).commands ++
          [Command.dispatch Pass.simulate
            (simulateGroups ps.mMaxParticles ps.mSimulateThreads) 1 1] } ∧
    (ps.update emitThreads dt view r draws).aliveListCounter = 0 ∧
    (ps.update emitThreads dt view r draws).deadListCounter = ps.deadListCounter ∧
    (ps.update emitThreads dt view r draws).deadList = ps.deadList ∧
    (ps.update emitThreads dt view r draws).indirectArgs = ps.indirectArgs := by
  refine ⟨rfl, update_eq_beforeSimulate emitThreads ps dt view r draws, rfl, ?_, ?_, ?_⟩ <;>
    simp only [ParticleSystem.update, ParticleSystem.emit] <;> split <;> split <;> rfl

/-- C13: in every state reachable from construction, `update` followed by
`render` appends to the command list, in this order: one emit dispatch exactly
when the timer reaches the frequency, one simulate dispatch, one sort dispatch
exactly when the engine was constructed sorted, and one indirect draw. -/
theorem frame_commands (emitThreads maxParticles maxEmitPerFrame : Nat) (sorted : Bool)
    (simThreads : Nat × Nat × Nat) (emitter : EmitterData) (timer : ℚ) (ps : ParticleSystem)
    (hr : ParticleSystem.Reachable emitThreads
      (ParticleSystem.create maxParticles maxEmitPerFrame sorted simThreads emitter timer) ps)
    (dt : ℚ) (view proj : List ℚ) (r : Int) (draws : Nat → ParticleDraw) :
    ((ps.update emitThreads dt view r draws).render view proj).commands =
      ps.commands ++
        (if ps.mEmitter.emitFrequency ≤ ps.mEmitTimer + dt then
          [Command.dispatch Pass.emit 1
            (div_round_up (emitRequest ps.mEmitter r).toNat emitThreads) 1]
         else []) ++
        [Command.dispatch Pass.simulate
          (simulateGroups ps.mMaxParticles ps.mSimulateThreads) 1 1] ++
        (if sorted then [Command.dispatch Pass.sort 1 1 1] else []) ++
        [Command.drawIndirect] := by
  have hsort : ps.mShouldSort = sorted := (ParticleSystem.reachable_sameResources hr).sort
  simp only [ParticleSystem.render, ParticleSystem.update, ParticleSystem.emit, timerStep]
  by_cases hf : ps.mEmitter.emitFrequency ≤ ps.mEmitTimer + dt <;>
    cases hs : sorted <;> simp [hf, hs, hsort]

/-- C13, witness: the sorted example engine after `setEmitData(3, 1, 2)`. -/
theorem frame_commands_witness :
    (((sortedExamplePS.setEmitData 3 1 2).update 64 (5 / 2) [] 1 fun _ => zeroDraw).render
        [] []).commands =
      (sortedExamplePS.setEmitData 3 1 2).commands ++
        (if (sortedExamplePS.setEmitData 3 1 2).mEmitter.emitFrequency ≤
            (sortedExamplePS.setEmitData 3 1 2).mEmitTimer + 5 / 2 then
          [Command.dispatch Pass.emit 1
            (div_round_up
              (emitRequest (sortedExamplePS.setEmitData 3 1 2).mEmitter 1).toNat 64) 1]
         else []) ++
        [Command.dispatch Pass.simulate
          (simulateGroups (sortedExamplePS.setEmitData 3 1 2).mMaxParticles
            (sortedExamplePS.setEmitData 3 1 2).mSimulateThreads) 1 1] ++
        (if true then [Command.dispatch Pass.sort 1 1 1] else []) ++
        [Command.drawIndirect] :=
  frame_commands 64 8 8 true (4, 1, 1) exampleEmitter 0 _
    (ParticleSystem.Reachable.setEmitData _ 3 1 2 ParticleSystem.Reachable.init)
    (5 / 2) [] [] 1 (fun _ => zeroDraw)

/-- The frame of the witness, evaluated: emit, simulate, sort, draw. -/
theorem frame_commands_example :
    (((sortedExamplePS.setEmitData 3 1 2).update 64 (5 / 2) [] 1 fun _ => zeroDraw).render
        [] []).commands =
      [Command.dispatch Pass.emit 1 1 1, Command.dispatch Pass.simulate 2 1 1,
        Command.dispatch Pass.sort 1 1 1, Command.drawIndirect] := by
  norm_num [ParticleSystem.render, ParticleSystem.update, ParticleSystem.emit, timerStep,
    ParticleSystem.setEmitData, sortedExamplePS, ParticleSystem.create, exampleEmitter,
    emitRequest, wrapInt32, toInt32, div_round_up, simulateGroups]
  decide

/-! ## What the mutators change -/

/-- C14: each of the eight mutators stores its first argument in the mean
field and its second in the offset field it is named for; putting the old
values back into these two fields gives the old emitter, and putting the old
emitter back gives the old engine, so no other emitter field, nor the timer,
nor the capacity changes. -/
theorem setters_touch_two_fields (ps : ParticleSystem) :
    (∀ a b : ℚ,
      (ps.setParticleDuration a b).mEmitter.duration = a ∧
      (ps.setParticleDuration a b).mEmitter.durationOffset = b ∧
      { (ps.setParticleDuration a b).mEmitter with
          duration := ps.mEmitter.duration, durationOffset := ps.mEmitter.durationOffset } = ps.mEmitter ∧
      { ps.setParticleDuration a b with mEmitter := ps.mEmitter } = ps ∧
      (ps.setParticleDuration a b).mEmitTimer = ps.mEmitTimer ∧
      (ps.setParticleDuration a b).mMaxParticles = ps.mMaxParticles) ∧
    (∀ a b : vec3,
      (ps.setSpawnPos a b).mEmitter.spawnPos = a ∧
      (ps.setSpawnPos a b).mEmitter.spawnPosOffset = b ∧
      { (ps.setSpawnPos a b).mEmitter with
          spawnPos := ps.mEmitter.spawnPos, spawnPosOffset := ps.mEmitter.spawnPosOffset } = ps.mEmitter ∧
      { ps.setSpawnPos a b with mEmitter := ps.mEmitter } = ps ∧
      (ps.setSpawnPos a b).mEmitTimer = ps.mEmitTimer ∧
      (ps.setSpawnPos a b).mMaxParticles = ps.mMaxParticles) ∧
    (∀ a b : vec3,
      (ps.setVelocity a b).mEmitter.vel = a ∧
      (ps.setVelocity a b).mEmitter.velOffset = b ∧
      { (ps.setVelocity a b).mEmitter with
          vel := ps.mEmitter.vel, velOffset := ps.mEmitter.velOffset } = ps.mEmitter ∧
      { ps.setVelocity a b with mEmitter := ps.mEmitter } = ps ∧
      (ps.setVelocity a b).mEmitTimer = ps.mEmitTimer ∧
      (ps.setVelocity a b).mMaxParticles = ps.mMaxParticles) ∧
    (∀ a b : vec3,
      (ps.setAcceleration a b).mEmitter.accel = a ∧
      (ps.setAcceleration a b).mEmitter.accelOffset = b ∧
      { (ps.setAcceleration a b).mEmitter with
          accel := ps.mEmitter.accel, accelOffset := ps.mEmitter.accelOffset } = ps.mEmitter ∧
      { ps.setAcceleration a b with mEmitter := ps.mEmitter } = ps ∧
      (ps.setAcceleration a b).mEmitTimer = ps.mEmitTimer ∧
      (ps.setAcceleration a b).mMaxParticles = ps.mMaxParticles) ∧
    (∀ a b : ℚ,
      (ps.setScale a b).mEmitter.scale = a ∧
      (ps.setScale a b).mEmitter.scaleOffset = b ∧
      { (ps.setScale a b).mEmitter with
          scale := ps.mEmitter.scale, scaleOffset := ps.mEmitter.scaleOffset } = ps.mEmitter ∧
      { ps.setScale a b with mEmitter := ps.mEmitter } = ps ∧
      (ps.setScale a b).mEmitTimer = ps.mEmitTimer ∧
      (ps.setScale a b).mMaxParticles = ps.mMaxParticles) ∧
    (∀ a b : ℚ,
      (ps.setGrowth a b).mEmitter.growth = a ∧
      (ps.setGrowth a b).mEmitter.growthOffset = b ∧
      { (ps.setGrowth a b).mEmitter with
          growth := ps.mEmitter.growth, growthOffset := ps.mEmitter.growthOffset } = ps.mEmitter ∧
      { ps.setGrowth a b with mEmitter := ps.mEmitter } = ps ∧
      (ps.setGrowth a b).mEmitTimer = ps.mEmitTimer ∧
      (ps.setGrowth a b).mMaxParticles = ps.mMaxParticles) ∧
    (∀ a b : ℚ,
      (ps.setBillboardRotation a b).mEmitter.billboardRotation = a ∧
      (ps.setBillboardRotation a b).mEmitter.billboardRotationOffset = b ∧
      { (ps.setBillboardRotation a b).mEmitter with
          billboardRotation := ps.mEmitter.billboardRotation, billboardRotationOffset := ps.mEmitter.billboardRotationOffset } = ps.mEmitter ∧
      { ps.setBillboardRotation a b with mEmitter := ps.mEmitter } = ps ∧
      (ps.setBillboardRotation a b).mEmitTimer = ps.mEmitTimer ∧
      (ps.setBillboardRotation a b).mMaxParticles = ps.mMaxParticles) ∧
    (∀ a b : ℚ,
      (ps.setBillboardRotationVelocity a b).mEmitter.billboardRotationVel = a ∧
      (ps.setBillboardRotationVelocity a b).mEmitter.billboardRotationVelOffset = b ∧
      { (ps.setBillboardRotationVelocity a b).mEmitter with
          billboardRotationVel := ps.mEmitter.billboardRotationVel, billboardRotationVelOffset := ps.mEmitter.billboardRotationVelOffset } = ps.mEmitter ∧
      { ps.setBillboardRotationVelocity a b with mEmitter := ps.mEmitter } = ps ∧
      (ps.setBillboardRotationVelocity a b).mEmitTimer = ps.mEmitTimer ∧
      (ps.setBillboardRotationVelocity a b).mMaxParticles = ps.mMaxParticles) :=
  ⟨fun _ _ => ⟨rfl, rfl, rfl, rfl, rfl, rfl⟩, fun _ _ => ⟨rfl, rfl, rfl, rfl, rfl, rfl⟩,
   fun _ _ => ⟨rfl, rfl, rfl, rfl, rfl, rfl⟩, fun _ _ => ⟨rfl, rfl, rfl, rfl, rfl, rfl⟩,
   fun _ _ => ⟨rfl, rfl, rfl, rfl, rfl, rfl⟩, fun _ _ => ⟨rfl, rfl, rfl, rfl, rfl, rfl⟩,
   fun _ _ => ⟨rfl, rfl, rfl, rfl, rfl, rfl⟩, fun _ _ => ⟨rfl, rfl, rfl, rfl, rfl, rfl⟩⟩

/-! ## The emit batch and the staging buffer -/

theorem update_emit_upload (emitThreads : Nat) (ps : ParticleSystem) (dt : ℚ)
    (view : List ℚ) (r : Int) (draws : Nat → ParticleDraw)
    (h : ps.mEmitter.emitFrequency ≤ ps.mEmitTimer + dt) :
    (ps.update emitThreads dt view r draws).emitCB =
      some { numEmit := (emitRequest ps.mEmitter r).toNat, maxParticles := ps.mMaxParticles } ∧
    (ps.update emitThreads dt view r draws).emitList =
      emittedParticles ps.mEmitter (emitRequest ps.mEmitter r).toNat draws := by
  simp only [ParticleSystem.update, timerStep, if_pos h, ParticleSystem.emit]
  cases hs : ps.mShouldSort <;> simp

/-- C15, the code at the failing input: an engine constructed with
max-emit-per-frame 8, after `setEmitData(100, 0, 1)` and `update(1)`; the
header and the batch handed to the emit pass have 100 entries, more than the
8 entries of the staging buffer. -/
theorem emit_request_exceeds_maxEmitPerFrame :
    ParticleSystem.Reachable 64 examplePS (examplePS.setEmitData 100 0 1) ∧
    (examplePS.setEmitData 100 0 1).mMaxEmitPerFrame = 8 ∧
    ValidCountDraw (examplePS.setEmitData 100 0 1).mEmitter 0 ∧
    emitRequest (examplePS.setEmitData 100 0 1).mEmitter 0 = 100 ∧
    ((examplePS.setEmitData 100 0 1).update 64 1 [] 0 fun _ => zeroDraw).emitCB =
      some { numEmit := 100, maxParticles := 1000 } ∧
    ((examplePS.setEmitData 100 0 1).update 64 1 [] 0 fun _ => zeroDraw).emitList.length =
      100 ∧
    ¬ (((examplePS.setEmitData 100 0 1).update 64 1 [] 0 fun _ => zeroDraw).emitList.length ≤
        (examplePS.setEmitData 100 0 1).mMaxEmitPerFrame) := by
  have hreq : emitRequest (examplePS.setEmitData 100 0 1).mEmitter 0 = 100 := by decide
  have hfreq : (examplePS.setEmitData 100 0 1).mEmitter.emitFrequency ≤
      (examplePS.setEmitData 100 0 1).mEmitTimer + 1 := by
    norm_num [ParticleSystem.setEmitData, examplePS, ParticleSystem.create]
  obtain ⟨hcb, hlist⟩ := update_emit_upload 64 (examplePS.setEmitData 100 0 1) 1 [] 0
    (fun _ => zeroDraw) hfreq
  rw [hreq] at hcb hlist
  have hlen : ((examplePS.setEmitData 100 0 1).update 64 1 [] 0
      fun _ => zeroDraw).emitList.length = 100 := by
    rw [hlist]
    simp [emittedParticles]
  refine ⟨ParticleSystem.Reachable.setEmitData _ 100 0 1 ParticleSystem.Reachable.init,
    rfl, by decide, hreq, hcb, hlen, ?_⟩
  rw [hlen]
  decide

end Falcor
